import Mathlib

/-!
Verification of the ws-doc-processing pipeline against its specification.

The Python sources (`src/tools/pdf_text_parser.py`, `src/tools/pdf_field_extractor.py`,
`src/main.py`) are shallowly embedded below.  External collaborators (OpenCV,
pytesseract, pdf2image, the Azure OpenAI completion endpoint, the filesystem)
are modelled as explicit oracles passed to the embedded functions; every other
piece of logic is translated statement by statement from the source.
-/

namespace DocPipeline

/-! ## Python string primitives

Python's `str` operations used by the sources, modelled over `List Char`
(with `String` wrappers).  Whitespace is modelled as Lean's `Char.isWhitespace`
(space, tab, CR, LF), the subset of Python's whitespace that occurs in the data
handled by this program.
-/

/-- Python `str.strip` on the leading side: drop leading whitespace. -/
def dropLeadWs (l : List Char) : List Char := l.dropWhile Char.isWhitespace

/-- Python `str.strip`: drop leading and trailing whitespace. -/
def pyStrip (l : List Char) : List Char :=
  ((dropLeadWs l).reverse.dropWhile Char.isWhitespace).reverse

/-- Python `str.strip` on `String`. -/
def pyStripStr (s : String) : String := ⟨pyStrip s.data⟩

/-- Structural worker for `pyWsSplit`; the fuel bounds the input length, so
the zero-fuel case with a non-empty input is never reached from `pyWsSplit`. -/
def pyWsSplitAux : Nat → List Char → List (List Char)
  | _, [] => []
  | 0, _ :: _ => []
  | Nat.succ fuel, c :: rest =>
    if Char.isWhitespace c then pyWsSplitAux fuel rest
    else
      (c :: rest.takeWhile (fun d => ! d.isWhitespace)) ::
        pyWsSplitAux fuel (rest.dropWhile (fun d => ! d.isWhitespace))

/-- Python `str.split()` with no separator: split on whitespace runs, dropping
empty tokens. -/
def pyWsSplit (l : List Char) : List (List Char) := pyWsSplitAux l.length l

/-- Python `' '.join(s.split())`: collapse every whitespace run to one space. -/
def pyCollapseWs (s : String) : String :=
  ⟨(pyWsSplit s.data).intersperse [' '] |>.flatten⟩

/-- Python `sub in s` (substring containment) over `List Char`. -/
def listContainsSub (sub : List Char) : List Char → Bool
  | [] => sub.isPrefixOf []
  | c :: rest => sub.isPrefixOf (c :: rest) || listContainsSub sub rest

/-- Python `sub in s` on `String`. -/
def strContainsSub (sub s : String) : Bool := listContainsSub sub.data s.data

/-- Structural worker for `pySplitOn`; the fuel bounds the input length, so
the zero-fuel case with a non-empty input is never reached from `pySplitOn`. -/
def pySplitOnAux (sep : List Char) : Nat → List Char → List (List Char)
  | _, [] => [[]]
  | 0, _ :: _ => []
  | Nat.succ fuel, c :: rest =>
    if sep ≠ [] ∧ sep.isPrefixOf (c :: rest) then
      [] :: pySplitOnAux sep fuel (List.drop (sep.length - 1) rest)
    else
      match pySplitOnAux sep fuel rest with
      | [] => [[c]]
      | p :: ps => (c :: p) :: ps

/-- Python `s.split(sep)` for a non-empty separator, over `List Char`. -/
def pySplitOn (sep : List Char) (s : List Char) : List (List Char) :=
  pySplitOnAux sep s.length s

/-- Python `s.split(sep)` on `String`. -/
def pySplitOnStr (sep s : String) : List String :=
  (pySplitOn sep.data s.data).map (fun l => ⟨l⟩)

/-- Python `os.path.basename` (POSIX): the part after the last `/`. -/
def pyBasename (s : String) : String :=
  ⟨((s.data.reverse.takeWhile (· ≠ '/')).reverse)⟩

/-- Python `os.path.splitext(..)[0]`: strip the last extension, where leading
dots of the name are not extension separators. -/
def pySplitextRoot (s : String) : String :=
  let l := s.data
  let lead := l.takeWhile (· = '.')
  let rest := l.drop lead.length
  let tail := rest.reverse.takeWhile (· ≠ '.')
  if tail.length = rest.length then s
  else ⟨lead ++ (rest.take (rest.length - tail.length - 1))⟩

/-- Python `os.path.join` (POSIX, relative second component). -/
def pjoin (dir name : String) : String :=
  if dir = "" then name
  else if dir.data.getLast? = some '/' then dir ++ name
  else dir ++ "/" ++ name

/-- Python `str.endswith`. -/
def pyEndsWith (suf s : String) : Bool := List.isSuffixOf suf.data s.data

/-- Python `str.lower` (ASCII). -/
def pyLower (s : String) : String := ⟨s.data.map Char.toLower⟩

/-! ## Image Preprocessor (`PDFTextParser.preprocess_image_for_ocr`)

OpenCV / PIL operations are external; each is an oracle that either returns a
transformed image or raises.  The image type itself is a parameter. -/

/-- The OpenCV/PIL operations invoked by `preprocess_image_for_ocr`, each
modelled as a fallible transform. -/
structure CvOps (Img : Type) where
  cvtToBgr : Img → Except String Img
  cvtToGray : Img → Except String Img
  gaussianBlur : Img → Except String Img
  adaptiveThreshold : Img → Except String Img
  morphOpen : Img → Except String Img
  morphClose : Img → Except String Img
  dilate : Img → Except String Img
  medianBlur : Img → Except String Img
  sharpen : Img → Except String Img
  enhanceContrast : Img → Except String Img
  enhanceBrightness : Img → Except String Img
  size : Img → Nat × Nat
  upscale : Img → Except String Img

/-- The body of the `try` block of `preprocess_image_for_ocr`: the fixed
enhancement chain, including the conditional upscale when either dimension is
below 300 pixels. -/
def preprocess_pipeline {Img : Type} (ops : CvOps Img) (image : Img) :
    Except String Img := do
  let imageCv ← ops.cvtToBgr image
  let gray ← ops.cvtToGray imageCv
  let blurred ← ops.gaussianBlur gray
  let thresh ← ops.adaptiveThreshold blurred
  let opening ← ops.morphOpen thresh
  let closing ← ops.morphClose opening
  let dilated ← ops.dilate closing
  let filtered ← ops.medianBlur dilated
  let sharpened ← ops.sharpen filtered
  let contrasted ← ops.enhanceContrast sharpened
  let brightened ← ops.enhanceBrightness contrasted
  let (width, height) := ops.size brightened
  if width < 300 ∨ height < 300 then ops.upscale brightened
  else pure brightened

/-- `PDFTextParser.preprocess_image_for_ocr`: run the enhancement chain; on any
internal exception return the original image unchanged. -/
def preprocess_image_for_ocr {Img : Type} (ops : CvOps Img) (image : Img) : Img :=
  match preprocess_pipeline ops image with
  | .ok processed => processed
  | .error _ => image

/-! ## OCR Engine Adapter (`PDFTextParser.extract_text_with_ocr_config`) -/

/-- The single Tesseract configuration used by the source. -/
def custom_config : String :=
  "--oem 3 --psm 6 -c tessedit_char_whitelist=0123456789ABCDEFGHIJKLMNOPQRSTUVWXYZabcdefghijklmnopqrstuvwxyz.,:-_/()[]@%+&"

/-- `PDFTextParser.extract_text_with_ocr_config`: one `pytesseract`
`image_to_string` call (the oracle takes the configuration string and the
image); an OCR exception yields the empty string. -/
def extract_text_with_ocr_config {Img : Type}
    (imageToString : String → Img → Except String String) (processedImage : Img) :
    String :=
  match imageToString custom_config processedImage with
  | .ok text => text
  | .error _ => ""

/-! ## Per-page text assembly and debug-image dump (`extract_text_ocr`) -/

/-- The text block `extract_text_ocr` appends for page `i` (0-based): empty when
the page's trimmed OCR output is empty, otherwise the page marker followed by
the whitespace-collapsed page text. -/
def pageContribution (i : Nat) (pageText : String) : String :=
  if pyStripStr pageText ≠ "" then
    "--- Page " ++ Nat.repr (i + 1) ++ " ---\n" ++
      pyStripStr (pyCollapseWs pageText) ++ "\n\n"
  else ""

/-- Paths of the original/processed debug images for page `i` (0-based) of a
document with `total` pages, as built in `extract_text_ocr`. -/
def pageImagePaths (outputDir filenameBase : String) (total i : Nat) :
    String × String :=
  if total = 1 then
    (pjoin outputDir (filenameBase ++ "_original.png"),
     pjoin outputDir (filenameBase ++ "_processed.png"))
  else
    (pjoin outputDir (filenameBase ++ "_original_page_" ++ Nat.repr (i + 1) ++ ".png"),
     pjoin outputDir (filenameBase ++ "_processed_page_" ++ Nat.repr (i + 1) ++ ".png"))

/-- The debug-image writes for one page: the original image is saved first,
then the processed one; a raised save aborts the rest of that page's `try`
block (the failure is only logged). `saveOk` is the filesystem oracle. -/
def dumpPageImages (saveOk : String → Bool) (outputDir filenameBase : String)
    (total i : Nat) : List String :=
  let (originalPath, processedPath) := pageImagePaths outputDir filenameBase total i
  if saveOk originalPath then
    if saveOk processedPath then [originalPath, processedPath] else [originalPath]
  else []

/-- External effects available to `extract_text_ocr`. -/
structure OcrEnv (Img : Type) where
  /-- `pdf2image.convert_from_path` at 300 DPI: the rendered pages, or a raise. -/
  convert : Except String (List Img)
  /-- The OpenCV/PIL preprocessing operations. -/
  ops : CvOps Img
  /-- `pytesseract.image_to_string`, keyed by configuration string. -/
  tesseract : String → Img → Except String String
  /-- Whether saving an image to a given path succeeds. -/
  saveOk : String → Bool

/-- Python truthiness of an `Optional[str]` argument. -/
def optTruthy : Option String → Bool
  | none => false
  | some s => s ≠ ""

/-- One iteration of the page loop of `extract_text_ocr`: preprocess the page,
dump its debug images when both optional arguments are truthy, OCR it and
append its text block. -/
def ocrPageStep {Img : Type} (env : OcrEnv Img)
    (outputDir filenameBase : Option String) (total : Nat)
    (acc : String × List String) (p : Nat × Img) : String × List String :=
  let (i, image) := p
  let processedImage := preprocess_image_for_ocr env.ops image
  let writes :=
    if optTruthy outputDir ∧ optTruthy filenameBase then
      dumpPageImages env.saveOk (outputDir.getD "") (filenameBase.getD "") total i
    else []
  let pageText := extract_text_with_ocr_config env.tesseract processedImage
  (acc.1 ++ pageContribution i pageText, acc.2 ++ writes)

/-- `PDFTextParser.extract_text_ocr`: render the PDF, preprocess and OCR each
page, dump debug images when both `output_dir` and `filename_base` are truthy,
and concatenate the non-empty pages' blocks.  Returns the final (stripped)
text together with the list of files written, in write order.  A raise from
`convert_from_path` is caught by the enclosing `try` and yields `""`. -/
def extract_text_ocr {Img : Type} (env : OcrEnv Img)
    (outputDir filenameBase : Option String) : String × List String :=
  match env.convert with
  | .error _ => ("", [])
  | .ok images =>
    let total := images.length
    let (text, writes) :=
      images.enum.foldl (ocrPageStep env outputDir filenameBase total) ("", [])
    (pyStripStr text, writes)

/-! ## `PDFTextParser.parse_and_save` -/

/-- The result dictionary of `parse_and_save`; absent keys are `none`. -/
structure ParseResult where
  pdf_path : Option String := none
  filename : Option String := none
  filename_base : Option String := none
  text_file : Option String := none
  info_file : Option String := none
  image_files : Option (List String) := none
  extraction_method : Option String := none
  text_length : Option Nat := none
  file_size : Option Nat := none
  processing_timestamp : Option String := none
  error : Option String := none
  success : Bool
deriving Repr, DecidableEq

/-- External effects available to `parse_and_save` beyond the OCR stage. -/
structure ParseEnv (Img : Type) where
  /-- `os.path.exists(pdf_path)`. -/
  pdf_exists : Bool
  /-- Effects of the OCR stage. -/
  ocr : OcrEnv Img
  /-- `os.stat(pdf_path).st_size`. -/
  st_size : Nat
  /-- `datetime.fromtimestamp(st_mtime).isoformat()`. -/
  st_mtime_iso : String
  /-- `datetime.datetime.now().isoformat()`. -/
  now_iso : String
  /-- The page count from the second `convert_from_path` (150 DPI), or a raise. -/
  countPages : Except String Nat
  /-- Exception text of the text-artifact write, `none` if the write succeeds. -/
  textWriteErr : Option String
  /-- Exception text of the info-artifact write, `none` if the write succeeds. -/
  infoWriteErr : Option String

/-- Join lines with newlines (Python's `"\n".join`, matching how a triple-quoted
f-string is read line by line). -/
def joinLines : List String → String
  | [] => ""
  | [l] => l
  | l :: l2 :: ls => l ++ "\n" ++ joinLines (l2 :: ls)

/-- The lines of the `metadata_header` f-string of `parse_and_save` up to and
including the blank line after `=== END METADATA ===` (the f-string keeps the
8-space indentation of each line). -/
def metadata_key_lines (originalFilename pdfPath : String) (stSize : Nat)
    (fileModified processingTimestamp outputDir : String) (textLength : Nat) :
    List String :=
  ["=== DOCUMENT METADATA ===",
   "",
   "        Original Filename: " ++ originalFilename,
   "        Original File Path: " ++ pdfPath,
   "        File Size: " ++ Nat.repr stSize ++ " bytes",
   "        File Modified: " ++ fileModified,
   "        Processing Timestamp: " ++ processingTimestamp,
   "        Extraction Method: Enhanced OCR (Tesseract with Advanced Preprocessing)",
   "        OCR Configuration: Multiple PSM modes with confidence-based selection",
   "        Image Preprocessing: Gaussian blur, adaptive thresholding, morphological operations, sharpening, contrast/brightness enhancement",
   "        Output Directory: " ++ outputDir,
   "        Processed Images: Saved both original and processed images for each page",
   "        Text Length: " ++ Nat.repr textLength ++ " characters",
   "        Parser Version: PDFTextParser v2.0 (Enhanced)",
   "        === END METADATA ===",
   ""]

/-- The comprehensive metadata header written at the top of the text artifact
(the `metadata_header` f-string of `parse_and_save`, indentation included,
written here line by line; `metadata_header_flat_check` below confirms the
assembled text against the f-string verbatim). -/
def metadata_header (originalFilename pdfPath : String) (stSize : Nat)
    (fileModified processingTimestamp outputDir : String) (textLength : Nat) :
    String :=
  joinLines (metadata_key_lines originalFilename pdfPath stSize fileModified
      processingTimestamp outputDir textLength ++
    ["        === EXTRACTED TEXT CONTENT ===", "        "])

/-- The characters of the metadata header strictly before the
`=== EXTRACTED TEXT CONTENT ===` marker. -/
def metadata_preamble (originalFilename pdfPath : String) (stSize : Nat)
    (fileModified processingTimestamp outputDir : String) (textLength : Nat) :
    List Char :=
  (joinLines (metadata_key_lines originalFilename pdfPath stSize fileModified
      processingTimestamp outputDir textLength)).data ++ '\n' :: "        ".data

/-- `final_content` of `parse_and_save`: header, extracted text, end marker. -/
def final_content (originalFilename pdfPath : String) (stSize : Nat)
    (fileModified processingTimestamp outputDir : String)
    (extractedText : String) : String :=
  metadata_header originalFilename pdfPath stSize fileModified
      processingTimestamp outputDir extractedText.length ++
    extractedText ++ "\n\n=== END DOCUMENT ==="

/-- The `image_files` documentation listing of `parse_and_save` (names only,
built from the 150-DPI page count; empty if that conversion raises). -/
def imageFilesListing (filenameBase : String) : Except String Nat → List String
  | .error _ => []
  | .ok total =>
    if total = 1 then
      [filenameBase ++ "_original.png", filenameBase ++ "_processed.png"]
    else
      (List.range total).flatMap fun i =>
        [filenameBase ++ "_original_page_" ++ Nat.repr (i + 1) ++ ".png",
         filenameBase ++ "_processed_page_" ++ Nat.repr (i + 1) ++ ".png"]

/-- `PDFTextParser.parse_and_save`: returns the result dictionary together with
the list of files written to the output directory, in write order. -/
def parse_and_save {Img : Type} (env : ParseEnv Img) (pdfPath outputDir : String) :
    ParseResult × List String :=
  if ¬ env.pdf_exists then
    ({ error := some "File not found", success := false }, [])
  else
    let originalFilename := pyBasename pdfPath
    let filenameBase := pySplitextRoot originalFilename
    let (extractedText, imgWrites) :=
      extract_text_ocr env.ocr (some outputDir) (some filenameBase)
    if extractedText = "" ∨ (pyStripStr extractedText).length < 10 then
      ({ pdf_path := some pdfPath, filename := some originalFilename,
         filename_base := some filenameBase,
         error := some "No meaningful text extracted via enhanced OCR",
         success := false }, imgWrites)
    else
      let imageFiles := imageFilesListing filenameBase env.countPages
      let textFilePath := pjoin outputDir (filenameBase ++ ".txt")
      match env.textWriteErr with
      | some e =>
        ({ pdf_path := some pdfPath, filename := some originalFilename,
           error := some ("Failed to save text file: " ++ e),
           success := false }, imgWrites)
      | none =>
        let infoFilePath := pjoin outputDir (filenameBase ++ "_info.txt")
        let writes := imgWrites ++ [textFilePath] ++
          (match env.infoWriteErr with
           | some _ => []
           | none => [infoFilePath])
        ({ pdf_path := some pdfPath, filename := some originalFilename,
           filename_base := some filenameBase,
           text_file := some textFilePath, info_file := some infoFilePath,
           image_files := some imageFiles,
           extraction_method := some "Enhanced OCR",
           text_length := some extractedText.length,
           file_size := some env.st_size,
           processing_timestamp := some env.now_iso,
           success := true }, writes)

/-! ## Batch Parser Runner (`parse_multiple_pdfs`) -/

/-- `parse_multiple_pdfs`: filter the directory listing to `.pdf` files
(case-insensitive), then run the parser on each in order; a raised exception
becomes a per-item failure record and the loop continues.  `runParse` models
`parser.parse_and_save(pdf_path, output_dir)` (the oracle closes over the
output directory). -/
def parse_multiple_pdfs (runParse : String → Except String ParseResult)
    (dirExists : Bool) (listing : List String) (pdfDirectory : String) :
    List ParseResult :=
  if ¬ dirExists then []
  else
    let pdfFiles := listing.filter fun f => pyEndsWith ".pdf" (pyLower f)
    if pdfFiles = [] then []
    else
      pdfFiles.map fun f =>
        match runParse (pjoin pdfDirectory f) with
        | .ok result => result
        | .error e =>
          { pdf_path := some (pjoin pdfDirectory f), filename := some f,
            error := some e, success := false }

/-! ## Batch Extraction Runner (`OpenAIDataExtractor.process_all_parsed_texts`) -/

/-- The per-file result dictionary of `process_parsed_text_file`, restricted to
the keys the batch claims inspect; absent keys are `none`. -/
structure ExtractEntry where
  text_file : Option String := none
  filename_base : Option String := none
  error : Option String := none
  success : Bool
deriving Repr, DecidableEq

/-- `process_all_parsed_texts`: filter the parsed-directory listing to `.txt`
files that are not `_info.txt` files, run the extractor on each in order; a
raised exception becomes a per-item failure record and the loop continues. -/
def process_all_parsed_texts (runExtract : String → Except String ExtractEntry)
    (dirExists : Bool) (listing : List String) (parsedDir : String) :
    List ExtractEntry :=
  if ¬ dirExists then []
  else
    let textFiles := listing.filter fun f =>
      pyEndsWith ".txt" f && ! pyEndsWith "_info.txt" f
    if textFiles = [] then []
    else
      textFiles.map fun f =>
        match runExtract (pjoin parsedDir f) with
        | .ok result => result
        | .error e =>
          { text_file := some (pjoin parsedDir f), error := some e,
            success := false }

/-! ## Field Extractor (`OpenAIDataExtractor`) -/

/-- The fixed part of the extraction prompt before the interpolated document text. -/
def extraction_prompt_head : String :=
  "You are an AI agent specialized in extracting structured data from OCRed PDF documents related to marine fuel deliveries. Your task is to carefully analyze the provided document text and extract the following specific fields.\n" ++
  " \n" ++
  "            ## Required Fields to Extract:\n" ++
  " \n" ++
  "            Extract the following information and return it in JSON format. If any field cannot be found or determined from the document, return \"NA\" for that field:\n" ++
  " \n" ++
  "            - **RECEIVING_VESSEL_NAME**: Name of the vessel receiving the fuel (e.g., \"Kan Wo\", \"MV Ocean Explorer\")\n" ++
  "            - **DELIVERING_VESSEL_NAME**: Name of the vessel or barge delivering the fuel (e.g., \"Teluge\", \"MV Fuel Carrier\")  \n" ++
  "            - **IMO_NUMBER**: International Maritime Organization number of the receiving vessel (e.g., \"9811074\")\n" ++
  "            - **PORT**: Port where the delivery took place (e.g., \"SINGAPORE\", \"Vancouver\")\n" ++
  "            - **DELIVERY_DATE**: Date of fuel delivery (format as found in document, e.g., \"1/5/2024\")\n" ++
  "            - **SUPPLIER_NAME**: Name of the fuel supplier company (e.g., \"Hyundai Oilbank Co. Ltd\")\n" ++
  "            - **SUPPLIER_ADDRESS**: Full address of the supplier (e.g., \"Building 123 Industrial District Seoul Korea\")\n" ++
  "            - **SUPPLIER_PHONE**: Phone number of the supplier (e.g., \"402-500-4500\")\n" ++
  "            - **DELIVERY_METHOD**: Method of delivery (e.g., \"lighter\", \"Barge\", \"Tanker\")\n" ++
  "            - **DELIVERY_LOCATION**: Specific location where delivery occurred (e.g., \"SINGAPORE ANCHORAGE\", \"Vancouver Harbor\")\n" ++
  "            - **PRODUCT_NAME**: Type of fuel product delivered (e.g., \"VLSFO\", \"LSMGO\")\n" ++
  "            - **QUANTITY_METRIC_TONS**: Quantity delivered in metric tons (e.g., \"86\", \"150\")\n" ++
  "            - **DENSITY_15C**: Density at 15°C (include units if specified, e.g., \"985.2\")\n" ++
  "            - **SULPHUR_CONTENT**: Sulphur content percentage or specification (e.g., \"0.35\")\n" ++
  "            - **FLASH_POINT**: Flash point temperature (include units, e.g., \"65°C\")\n" ++
  "            - **TIME_OF_COMMENCEMENT**: Start time of delivery operation (e.g., \"08:00\" or \"08:00:00\")\n" ++
  "            - **TIME_COMPLETED**: End time of delivery operation (e.g., \"10:00\" or \"10:00:00\")\n" ++
  " \n" ++
  "            ## Product Reference Guide:\n" ++
  "            The PRODUCT_NAME should match one of these common marine fuels if identified:\n" ++
  "            - HFO (Heavy Fuel Oil)\n" ++
  "            - LSFO (Low Sulphur Fuel Oil)\n" ++
  "            - VLSFO (Very Low Sulphur Fuel Oil)\n" ++
  "            - MDO (Marine Diesel Oil)\n" ++
  "            - MGO (Marine Gas Oil)\n" ++
  "            - BIO (Biofuel)\n" ++
  "            - FAME (Fatty Acid Methyl Ester)\n" ++
  "            - LNG (Liquefied Natural Gas)\n" ++
  "            - LPG (Liquefied Petroleum Gas)\n" ++
  "            - Methanol\n" ++
  " \n" ++
  "            ## Instructions:\n" ++
  "            1. Carefully read through the entire OCRed document text\n" ++
  "            2. Look for variations in terminology (e.g., \"vessel name\" vs \"ship name\", \"mt\" vs \"metric tons\")\n" ++
  "            3. Pay attention to tables, headers, and structured sections\n" ++
  "            4. Cross-reference information if the same data appears in multiple locations\n" ++
  "            5. For dates and times, preserve the original format found in the document\n" ++
  "            6. Return \"NA\" for any field that cannot be definitively determined\n" ++
  "            7. Format your response as clean, valid JSON      \n" ++
  " \n" ++
  "            ## Output Format:\n" ++
  "            Return your findings in the following JSON structure:\n" ++
  " \n" ++
  "            ```json\n" ++
  "            \x7b\n" ++
  "            \"RECEIVING_VESSEL_NAME\": \"\",\n" ++
  "            \"DELIVERING_VESSEL_NAME\": \"\",\n" ++
  "            \"IMO_NUMBER\": \"\",\n" ++
  "            \"PORT\": \"\",\n" ++
  "            \"DELIVERY_DATE\": \"\",\n" ++
  "            \"SUPPLIER_NAME\": \"\",\n" ++
  "            \"SUPPLIER_ADDRESS\": \"\",\n" ++
  "            \"SUPPLIER_PHONE\": \"\",\n" ++
  "            \"DELIVERY_METHOD\": \"\",\n" ++
  "            \"DELIVERY_LOCATION\": \"\",\n" ++
  "            \"PRODUCT_NAME\": \"\",\n" ++
  "            \"QUANTITY_METRIC_TONS\": \"\",\n" ++
  "            \"DENSITY_15C\": \"\",\n" ++
  "            \"SULPHUR_CONTENT\": \"\",\n" ++
  "            \"FLASH_POINT\": \"\",\n" ++
  "            \"TIME_OF_COMMENCEMENT\": \"\",\n" ++
  "            \"TIME_COMPLETED\": \"\"\n" ++
  "            \x7d\n" ++
  "            ```\n" ++
  " \n" ++
  "            ## Document Text to Analyze:\n" ++
  " \n" ++
  "            "

/-- The fixed part of the extraction prompt after the interpolated document text. -/
def extraction_prompt_tail : String :=
  "\n" ++
  " \n" ++
  "            Now please analyze the provided OCRed document text and extract the requested information."

/-- `OpenAIDataExtractor.get_extraction_prompt`: the specialized marine-fuel
prompt with the document text embedded. -/
def get_extraction_prompt (documentText : String) : String :=
  extraction_prompt_head ++ documentText ++ extraction_prompt_tail

/-- The character ceiling of `extract_marine_fuel_data` (`max_chars`). -/
def max_chars : Nat := 12000

/-- The user-message content passed to the completion request in
`extract_marine_fuel_data`: the prompt is built from the document text first;
the subsequent truncation rebinds the local `document_text` variable, which is
not read again, so the request carries the untruncated prompt. -/
def extract_request_prompt (documentText : String) : String :=
  let prompt := get_extraction_prompt documentText
  let _documentText :=
    if documentText.length > max_chars then
      ⟨documentText.data.take max_chars⟩ ++ "\n[...TRUNCATED...]"
    else documentText
  prompt

/-- Outcome of the `chat.completions.create` call. -/
inductive Completion where
  /-- The API call raised (network/auth/service error). -/
  | raise (msg : String)
  /-- The API returned; `content` is `response.choices[0].message.content`. -/
  | reply (content : Option String)

/-- `result_text` of `extract_marine_fuel_data`:
`response.choices[0].message.content or "{}"` (Python `or`, so both `None` and
the empty string fall back). -/
def result_text_of : Option String → String
  | none => "\x7b\x7d"
  | some s => if s = "" then "\x7b\x7d" else s

/-- The 17 field names of the extraction schema. -/
def requiredFields : List String :=
  ["RECEIVING_VESSEL_NAME", "DELIVERING_VESSEL_NAME", "IMO_NUMBER", "PORT",
   "DELIVERY_DATE", "SUPPLIER_NAME", "SUPPLIER_ADDRESS", "SUPPLIER_PHONE",
   "DELIVERY_METHOD", "DELIVERY_LOCATION", "PRODUCT_NAME",
   "QUANTITY_METRIC_TONS", "DENSITY_15C", "SULPHUR_CONTENT", "FLASH_POINT",
   "TIME_OF_COMMENCEMENT", "TIME_COMPLETED"]

/-- `OpenAIDataExtractor.extract_marine_fuel_data`: build the prompt, call the
completion service, parse the returned text as JSON.  The returned Python dict
is modelled as a key/value list in insertion order: the parsed JSON object is
returned as-is; a `json.JSONDecodeError` yields
`{"error": "JSON parsing failed", "raw_response": result_text}`; any other
exception yields `{"error": str(e)}`.  `jsonLoads` models `json.loads`
restricted to JSON objects with string values. -/
def extract_marine_fuel_data
    (jsonLoads : String → Except String (List (String × String)))
    (complete : String → Completion) (documentText : String) :
    List (String × String) :=
  match complete (extract_request_prompt documentText) with
  | .raise e => [("error", e)]
  | .reply content =>
    let resultText := result_text_of content
    match jsonLoads resultText with
    | .ok extractedData => extractedData
    | .error _ => [("error", "JSON parsing failed"), ("raw_response", resultText)]

/-! ## Stage-1 artifact metadata parsing
(`OpenAIDataExtractor.process_parsed_text_file`, lines 217-230) -/

/-- One step of the metadata line loop: a line containing `:` and not starting
with `===` contributes `(key.strip(), value.strip())` split at the first
colon; dict assignment is modelled by appending (lookups read the last
binding). -/
def headerLineStep (acc : List (String × String)) (line : String) :
    List (String × String) :=
  if line.data.contains ':' ∧ ¬ ("===".data.isPrefixOf line.data) then
    let key : String := ⟨pyStrip (line.data.takeWhile (· ≠ ':'))⟩
    let value : String := ⟨pyStrip ((line.data.dropWhile (· ≠ ':')).drop 1)⟩
    acc ++ [(key, value)]
  else acc

/-- The metadata dictionary `process_parsed_text_file` builds from a Stage-1
artifact: if the content carries the metadata marker and splits in two at the
content marker, parse the `key: value` lines of the part before the content
marker; otherwise no metadata. -/
def parse_artifact_metadata (fullContent : String) : List (String × String) :=
  if strContainsSub "=== DOCUMENT METADATA ===" fullContent then
    let parts := pySplitOnStr "=== EXTRACTED TEXT CONTENT ===" fullContent
    if 2 ≤ parts.length then
      let metadataSection := parts.headI
      (pySplitOnStr "\n" metadataSection).foldl headerLineStep []
    else []
  else []

/-- Python `dict.get` over the insertion-ordered key/value list: the value of
the last assignment to the key. -/
def dictGet (pairs : List (String × String)) (k : String) : Option String :=
  pairs.reverse.lookup k

/-! ## Consolidated batch report (`main.main`, Stage 2) -/

/-- The `processing_summary` block of the consolidated report, restricted to
its counts, together with `individual_results`. -/
structure BatchReport where
  total_files_processed : Nat
  successful_extractions : Nat
  failed_extractions : Nat
  individual_results : List ExtractEntry
deriving Repr, DecidableEq

/-- Stage 2 of `main.main`: `pdfFiles` is the `.pdf` listing taken at the start
of Stage 1, `parsedListing` the parsed-directory listing taken at the start of
Stage 2; one extraction result per `.txt` (non-`_info.txt`) artifact via the
pool (`pool.map` preserves order), counted by the `success` key, while
`total_files_processed` is the Stage-1 PDF count. -/
def consolidated_report (runExtract : String → Except String ExtractEntry)
    (pdfFiles parsedListing : List String) (parsedDir : String) : BatchReport :=
  let textFiles := parsedListing.filter fun f =>
    pyEndsWith ".txt" f && ! pyEndsWith "_info.txt" f
  let extractionResults := textFiles.map fun f =>
    match runExtract (pjoin parsedDir f) with
    | .ok result => result
    | .error e =>
      { text_file := some (pjoin parsedDir f),
        filename_base := some ⟨(pySplitOn ".txt".data f.data).flatten⟩,
        error := some e, success := false }
  { total_files_processed := pdfFiles.length,
    successful_extractions := (extractionResults.filter (·.success)).length,
    failed_extractions := (extractionResults.filter (¬ ·.success)).length,
    individual_results := extractionResults }

/-! ## Multi-configuration OCR mode (spec §4.2)

The repository strings reference a multi-configuration OCR mode with
confidence scoring (`parse_and_save` metadata: "Multiple PSM modes with
confidence-based selection"), but its implementation is not among the provided
sources; it is modelled from the spec below. -/

/-- Modelled from the spec: the page-segmentation assumptions varied by the
multi-configuration mode (uniform block, single line, single word, sparse
text); the implementation of this mode is not among the provided sources. -/
inductive PSMMode where
  | uniformBlock
  | singleLine
  | singleWord
  | sparseText
deriving DecidableEq, Repr

/-- The N fixed configurations of the multi-configuration mode. -/
def multiConfigModes : List PSMMode :=
  [.uniformBlock, .singleLine, .singleWord, .sparseText]

/-- Modelled from the spec: an `OCRCandidate` — the text one configuration
produced together with its per-token confidence signals (`none` for a token
with no confidence signal). -/
structure OCRCandidate where
  text : String
  confidences : List (Option ℚ)

/-- Modelled from the spec: a candidate's score is the mean per-token
confidence, ignoring tokens with no confidence signal. -/
def candidateScore (c : OCRCandidate) : ℚ :=
  let confs := c.confidences.filterMap id
  if confs.length = 0 then 0 else confs.sum / confs.length

/-- The highest-scoring candidate of a list (first wins ties), `none` for an
empty list. -/
def selectBest : List OCRCandidate → Option OCRCandidate
  | [] => none
  | c :: cs =>
    some (cs.foldl (fun best d =>
      if candidateScore best < candidateScore d then d else best) c)

/-- Modelled from the spec: multi-configuration OCR — run the N fixed
configurations (a raising configuration is skipped), keep the candidates with
usable (non-empty) output, and return the text of the highest-scoring one; if
every configuration yields zero usable output, fall back to the
single-configuration default (`extract_text_with_ocr_config`), whose own
failure propagates the empty string. -/
def multi_config_ocr {Img : Type}
    (runConfig : PSMMode → Img → Except String OCRCandidate)
    (imageToString : String → Img → Except String String) (image : Img) :
    String :=
  let candidates := multiConfigModes.filterMap fun m => (runConfig m image).toOption
  let usableCands := candidates.filter fun c => c.text ≠ ""
  match selectBest usableCands with
  | some best => best.text
  | none => extract_text_with_ocr_config imageToString image

/-! ## Concrete instances used by witnesses and counterexamples -/

/-- `CvOps` whose steps all succeed without changing the image. -/
def cvOkOps : CvOps Unit where
  cvtToBgr := fun i => .ok i
  cvtToGray := fun i => .ok i
  gaussianBlur := fun i => .ok i
  adaptiveThreshold := fun i => .ok i
  morphOpen := fun i => .ok i
  morphClose := fun i => .ok i
  dilate := fun i => .ok i
  medianBlur := fun i => .ok i
  sharpen := fun i => .ok i
  enhanceContrast := fun i => .ok i
  enhanceBrightness := fun i => .ok i
  size := fun _ => (2550, 3300)
  upscale := fun i => .ok i

/-- `cvOkOps` with a raising adaptive-threshold step. -/
def cvFailOps : CvOps Unit :=
  { cvOkOps with adaptiveThreshold := fun _ => .error "cv2.error" }

/-- A one-page rendering environment whose OCR returns the given text. -/
def ocrEnvWith (pageText : String) : OcrEnv Unit where
  convert := .ok [()]
  ops := cvOkOps
  tesseract := fun _ _ => .ok pageText
  saveOk := fun _ => true

/-- A `ParseEnv` around `ocrEnvWith` with healthy filesystem and metadata. -/
def parseEnvWith (pageText : String) : ParseEnv Unit where
  pdf_exists := true
  ocr := ocrEnvWith pageText
  st_size := 2048
  st_mtime_iso := "2024-01-01T00:00:00"
  now_iso := "2024-01-02T03:04:05"
  countPages := .ok 1
  textWriteErr := none
  infoWriteErr := none

/-- `json.loads` behaviour on the empty JSON object (the only input the
counterexample reaches): `json.loads "{}"` is the empty dict. -/
def jsonLoadsEmptyObj : String → Except String (List (String × String)) :=
  fun s => if s = "\x7b\x7d" then .ok [] else .error "unreached"

/-- The shape claimed for every `extract_marine_fuel_data` result: either a
field object carrying all 17 schema fields, or a failure object carrying both
an `error` and a `raw_response` entry. -/
def claimedExtractShape (d : List (String × String)) : Prop :=
  (∀ k ∈ requiredFields, ∃ p ∈ d, p.1 = k) ∨
  ((∃ p ∈ d, p.1 = "error") ∧ (∃ p ∈ d, p.1 = "raw_response"))

instance claimedExtractShape.instDecidable (d : List (String × String)) :
    Decidable (claimedExtractShape d) := by
  unfold claimedExtractShape
  infer_instance

/-- A 12001-character document text (one character above `max_chars`). -/
def t12001 : String := ⟨List.replicate 12001 'a'⟩

/-- An extraction oracle that always succeeds (for the report instance). -/
def okExtractOracle : String → Except String ExtractEntry :=
  fun f => .ok { text_file := some f, success := true }

/-- Batch parse oracle for the C7 witness: succeeds on `d/a.pdf`, raises on
everything else. -/
def runParseW : String → Except String ParseResult :=
  fun p => if p = "d/a.pdf" then .ok { success := true } else .error "boom"

/-- Batch extraction oracle for the C7 witness. -/
def runExtractW : String → Except String ExtractEntry :=
  fun p => if p = "p/x.txt" then .ok { text_file := some p, success := true }
           else .error "boom2"

/-- A multi-configuration run in which only the single-line configuration
succeeds (with text "hello"). -/
def runC3Config : PSMMode → Unit → Except String OCRCandidate :=
  fun m _ =>
    if m = PSMMode.singleLine then .ok ⟨"hello", [some 80]⟩
    else .error "skipped"

end DocPipeline
namespace DocPipeline

/-- C6: Image preprocessing is total: for every input image the preprocessor
returns an image — the enhanced one when the internal pipeline succeeds, and
the original input unchanged whenever any internal step fails. -/
theorem claim_C6_preprocess_total_fallback {Img : Type} (ops : CvOps Img)
    (image : Img) :
    (∀ e, preprocess_pipeline ops image = .error e →
      preprocess_image_for_ocr ops image = image) ∧
    (∀ processed, preprocess_pipeline ops image = .ok processed →
      preprocess_image_for_ocr ops image = processed) := by
  constructor
  · intro e he
    simp [preprocess_image_for_ocr, he]
  · intro processed hp
    simp [preprocess_image_for_ocr, hp]

/-- Witness for C6 at a concrete failing pipeline: the adaptive-threshold step
raises, and the preprocessor returns the original image. -/
theorem claim_C6_witness :
    preprocess_pipeline cvFailOps () = .error "cv2.error" ∧
    preprocess_image_for_ocr cvFailOps () = () :=
  ⟨rfl, (claim_C6_preprocess_total_fallback cvFailOps ()).1 "cv2.error" rfl⟩

/-- C4 (code bug): for a 12001-character document text the prompt actually
passed to the completion request embeds the full untruncated text — the
truncation in `extract_marine_fuel_data` happens only after the prompt has
been built and its result is never used. -/
theorem claim_C4_full_text_in_prompt :
    t12001.length = 12001 ∧ max_chars < t12001.length ∧
    (extract_request_prompt t12001).data =
      extraction_prompt_head.data ++ t12001.data ++ extraction_prompt_tail.data := by
  have hlen : t12001.length = 12001 := by
    have h : t12001.length = (List.replicate 12001 'a').length := rfl
    rw [h, List.length_replicate]
  refine ⟨hlen, ?_, ?_⟩
  · rw [hlen]; decide
  · show (get_extraction_prompt t12001).data = _
    simp [get_extraction_prompt, String.data_append, List.append_assoc]

/-- C5 (counterexample): when the completion service returns the valid JSON
object `{}`, `extract_marine_fuel_data` returns an empty field object — neither
a 17-field object nor a failure object; and when the API call raises, the
failure object carries `error` but no `raw_response`. -/
theorem claim_C5_counterexample :
    ¬ claimedExtractShape
        (extract_marine_fuel_data jsonLoadsEmptyObj
          (fun _ => .reply (some "\x7b\x7d")) "doc") ∧
    ¬ claimedExtractShape
        (extract_marine_fuel_data jsonLoadsEmptyObj
          (fun _ => .raise "Connection error") "doc") := by
  constructor <;> decide

/-- C5 (amended): `extract_marine_fuel_data` returns the JSON object parsed
from the completion text exactly as parsed (without validating that the 17
fields are present); on a JSON parse failure it returns a failure object with
`error` and with `raw_response` carrying the raw completion text; on any other
failure it returns a failure object with `error` alone. -/
theorem claim_C5_result_shapes
    (jsonLoads : String → Except String (List (String × String)))
    (complete : String → Completion) (documentText : String) :
    (∀ e, complete (extract_request_prompt documentText) = .raise e →
      extract_marine_fuel_data jsonLoads complete documentText = [("error", e)]) ∧
    (∀ content, complete (extract_request_prompt documentText) = .reply content →
      (∀ obj, jsonLoads (result_text_of content) = .ok obj →
        extract_marine_fuel_data jsonLoads complete documentText = obj) ∧
      (∀ e, jsonLoads (result_text_of content) = .error e →
        extract_marine_fuel_data jsonLoads complete documentText =
          [("error", "JSON parsing failed"),
           ("raw_response", result_text_of content)])) := by
  refine ⟨fun e he => ?_, fun content hc => ⟨fun obj hobj => ?_, fun e he => ?_⟩⟩
  · simp [extract_marine_fuel_data, he]
  · simp [extract_marine_fuel_data, hc, hobj]
  · simp [extract_marine_fuel_data, hc, he]

/-- Witness for C5 (amended) at a concrete completion with `None` content:
the `or "{}"` fallback parses to the empty object and is returned as-is. -/
theorem claim_C5_result_shapes_witness :
    extract_marine_fuel_data jsonLoadsEmptyObj (fun _ => .reply none) "x" = [] :=
  ((claim_C5_result_shapes jsonLoadsEmptyObj (fun _ => .reply none) "x").2
    none rfl).1 [] rfl

/-- C10: in the consolidated report, `total_files_processed` counts the `.pdf`
files found at the start of Stage 1 while `individual_results` carries one
record per `.txt` (non-`_info.txt`) artifact found at the start of Stage 2;
consequently the two counts can differ, as at the given concrete instance. -/
theorem claim_C10_report_counts :
    (∀ (runExtract : String → Except String ExtractEntry)
       (pdfFiles parsedListing : List String) (parsedDir : String),
      (consolidated_report runExtract pdfFiles parsedListing
          parsedDir).total_files_processed = pdfFiles.length ∧
      (consolidated_report runExtract pdfFiles parsedListing
          parsedDir).individual_results.length =
        (parsedListing.filter fun f =>
          pyEndsWith ".txt" f && ! pyEndsWith "_info.txt" f).length) ∧
    (consolidated_report okExtractOracle ["a.pdf", "b.pdf"] ["a.txt"]
        "parsed").total_files_processed ≠
      (consolidated_report okExtractOracle ["a.pdf", "b.pdf"] ["a.txt"]
        "parsed").individual_results.length := by
  constructor
  · intro runExtract pdfFiles parsedListing parsedDir
    exact ⟨rfl, by simp [consolidated_report]⟩
  · decide

/-- The fold underlying `selectBest` returns one of its inputs. -/
theorem foldl_best_mem (cs : List OCRCandidate) (a : OCRCandidate) :
    cs.foldl (fun best d =>
      if candidateScore best < candidateScore d then d else best) a ∈ a :: cs := by
  induction cs generalizing a with
  | nil => simp
  | cons b bs ih =>
    simp only [List.foldl_cons]
    by_cases hc : candidateScore a < candidateScore b
    · rw [if_pos hc]
      rcases List.mem_cons.mp (ih b) with h | h
      · simp [h]
      · simp [h]
    · rw [if_neg hc]
      rcases List.mem_cons.mp (ih a) with h | h
      · simp [h]
      · simp [h]

/-- `selectBest` returns a member of its input list. -/
theorem selectBest_mem {l : List OCRCandidate} {c : OCRCandidate}
    (h : selectBest l = some c) : c ∈ l := by
  cases l with
  | nil => simp [selectBest] at h
  | cons a as =>
    simp only [selectBest, Option.some.injEq] at h
    rw [← h]
    exact foldl_best_mem as a

/-- `selectBest` is `none` only on the empty list. -/
theorem selectBest_eq_none {l : List OCRCandidate}
    (h : selectBest l = none) : l = [] := by
  cases l with
  | nil => rfl
  | cons a as => simp [selectBest] at h

/-- C3 (spec-modelled): the multi-configuration OCR mode never returns empty
text when at least one configuration — the fallback single-configuration
default included — produces non-empty output. -/
theorem claim_C3_multi_config_nonempty {Img : Type}
    (runConfig : PSMMode → Img → Except String OCRCandidate)
    (imageToString : String → Img → Except String String) (image : Img)
    (h : (∃ m ∈ multiConfigModes, ∃ c, runConfig m image = .ok c ∧ c.text ≠ "") ∨
      extract_text_with_ocr_config imageToString image ≠ "") :
    multi_config_ocr runConfig imageToString image ≠ "" := by
  unfold multi_config_ocr
  dsimp only
  split
  next best hsel =>
    have hmem := selectBest_mem hsel
    have := (List.mem_filter.mp hmem).2
    simpa using this
  next hsel =>
    rcases h with ⟨m, hm, c, hrun, htext⟩ | hfb
    · exfalso
      have hempty := selectBest_eq_none hsel
      have hc : c ∈ multiConfigModes.filterMap
          (fun m => (runConfig m image).toOption) :=
        List.mem_filterMap.mpr ⟨m, hm, by rw [hrun]; rfl⟩
      have := List.filter_eq_nil_iff.mp hempty c hc
      simp [htext] at this
    · exact hfb

/-- Witness for C3: one configuration succeeds with text "hello" although the
fallback fails; the mode selects it and the result is non-empty. -/
theorem claim_C3_witness :
    multi_config_ocr runC3Config (fun _ _ => .error "fallback fails") () = "hello" ∧
    multi_config_ocr runC3Config (fun _ _ => .error "fallback fails") () ≠ "" :=
  ⟨rfl, claim_C3_multi_config_nonempty runC3Config _ ()
    (Or.inl ⟨PSMMode.singleLine, by decide,
      ⟨"hello", [some 80]⟩, by simp [runC3Config], by simp⟩)⟩

/-- C7: both batch runners keep a 1:1 correspondence between the matching
input files and the emitted result records: the result list has exactly one
entry per `.pdf` file (case-insensitive) respectively per `.txt`
(non-`_info.txt`) artifact, in order, and a per-item exception is recorded as
a failure record at that item's position without affecting the other items. -/
theorem claim_C7_batch_one_to_one
    (runParse : String → Except String ParseResult)
    (runExtract : String → Except String ExtractEntry)
    (listing listing2 : List String) (pdfDir parsedDir : String) :
    ((parse_multiple_pdfs runParse true listing pdfDir).length =
        (listing.filter fun f => pyEndsWith ".pdf" (pyLower f)).length ∧
      ∀ i, (h : i < (listing.filter fun f => pyEndsWith ".pdf" (pyLower f)).length) →
        (∀ r, runParse (pjoin pdfDir ((listing.filter fun f =>
              pyEndsWith ".pdf" (pyLower f))[i])) = .ok r →
          (parse_multiple_pdfs runParse true listing pdfDir)[i]? = some r) ∧
        (∀ e, runParse (pjoin pdfDir ((listing.filter fun f =>
              pyEndsWith ".pdf" (pyLower f))[i])) = .error e →
          (parse_multiple_pdfs runParse true listing pdfDir)[i]? = some
            { pdf_path := some (pjoin pdfDir ((listing.filter fun f =>
                pyEndsWith ".pdf" (pyLower f))[i])),
              filename := some ((listing.filter fun f =>
                pyEndsWith ".pdf" (pyLower f))[i]),
              error := some e, success := false })) ∧
    ((process_all_parsed_texts runExtract true listing2 parsedDir).length =
        (listing2.filter fun f =>
          pyEndsWith ".txt" f && ! pyEndsWith "_info.txt" f).length ∧
      ∀ i, (h : i < (listing2.filter fun f =>
          pyEndsWith ".txt" f && ! pyEndsWith "_info.txt" f).length) →
        (∀ r, runExtract (pjoin parsedDir ((listing2.filter fun f =>
              pyEndsWith ".txt" f && ! pyEndsWith "_info.txt" f)[i])) = .ok r →
          (process_all_parsed_texts runExtract true listing2 parsedDir)[i]? = some r) ∧
        (∀ e, runExtract (pjoin parsedDir ((listing2.filter fun f =>
              pyEndsWith ".txt" f && ! pyEndsWith "_info.txt" f)[i])) = .error e →
          (process_all_parsed_texts runExtract true listing2 parsedDir)[i]? = some
            { text_file := some (pjoin parsedDir ((listing2.filter fun f =>
                pyEndsWith ".txt" f && ! pyEndsWith "_info.txt" f)[i])),
              error := some e, success := false })) := by
  constructor
  · unfold parse_multiple_pdfs
    by_cases hnil : (listing.filter fun f => pyEndsWith ".pdf" (pyLower f)) = []
    · simp [hnil]
    · simp only [hnil, if_false, not_true, if_neg, ite_false]
      constructor
      · simp [List.length_map]
      · intro i hi
        constructor
        · intro r hr
          simp [List.getElem?_map, List.getElem?_eq_getElem hi, hr]
        · intro e he
          simp [List.getElem?_map, List.getElem?_eq_getElem hi, he]
  · unfold process_all_parsed_texts
    by_cases hnil : (listing2.filter fun f =>
        pyEndsWith ".txt" f && ! pyEndsWith "_info.txt" f) = []
    · simp [hnil]
    · simp only [hnil, if_false, not_true, if_neg, ite_false]
      constructor
      · simp [List.length_map]
      · intro i hi
        constructor
        · intro r hr
          simp [List.getElem?_map, List.getElem?_eq_getElem hi, hr]
        · intro e he
          simp [List.getElem?_map, List.getElem?_eq_getElem hi, he]

/-- Witness for C7 at concrete listings and oracles: three directory entries,
two matching `.pdf` files, two result records with the raising item recorded
as a failure; and one matching `.txt` artifact out of two entries. -/
theorem claim_C7_witness :
    (parse_multiple_pdfs runParseW true ["a.pdf", "b.PDF", "c.doc"] "d").length = 2 ∧
    (parse_multiple_pdfs runParseW true ["a.pdf", "b.PDF", "c.doc"] "d")[1]? =
      some { pdf_path := some "d/b.PDF", filename := some "b.PDF",
             error := some "boom", success := false } ∧
    (process_all_parsed_texts runExtractW true ["x.txt", "x_info.txt"] "p").length = 1 := by
  have h := claim_C7_batch_one_to_one runParseW runExtractW
    ["a.pdf", "b.PDF", "c.doc"] ["x.txt", "x_info.txt"] "d" "p"
  refine ⟨?_, ?_, ?_⟩
  · rw [h.1.1]; decide
  · exact ((h.1.2 1 (by decide)).2 "boom" rfl).trans (by decide)
  · rw [h.2.1]; decide

/-- `pjoin` only prepends to its second component. -/
theorem pjoin_factor (d n : String) : ∃ p, pjoin d n = p ++ n := by
  unfold pjoin
  by_cases h1 : d = ""
  · exact ⟨"", by simp [h1]⟩
  · by_cases h2 : d.data.getLast? = some '/'
    · exact ⟨d, by simp [h1, h2]⟩
    · exact ⟨d ++ "/", by simp [h1, h2, String.append_assoc]⟩

/-- Joining a `.png` name onto a directory yields a `.png` path. -/
theorem pjoin_png (od x : String) : ∃ p, pjoin od (x ++ ".png") = p ++ ".png" := by
  obtain ⟨p, hp⟩ := pjoin_factor od (x ++ ".png")
  exact ⟨p ++ x, by rw [hp, String.append_assoc]⟩

/-- Both debug-image paths of a page end in `.png`. -/
theorem pageImagePaths_png (od fb : String) (total i : Nat) :
    (∃ p, (pageImagePaths od fb total i).1 = p ++ ".png") ∧
    (∃ q, (pageImagePaths od fb total i).2 = q ++ ".png") := by
  unfold pageImagePaths
  by_cases h : total = 1
  · rw [if_pos h]
    constructor
    · show ∃ p, pjoin od (fb ++ "_original.png") = p ++ ".png"
      have h0 : ("_original.png" : String) = "_original" ++ ".png" := rfl
      have he : fb ++ "_original.png" = (fb ++ "_original") ++ ".png" := by
        rw [String.append_assoc, ← h0]
      rw [he]
      exact pjoin_png od (fb ++ "_original")
    · show ∃ q, pjoin od (fb ++ "_processed.png") = q ++ ".png"
      have h0 : ("_processed.png" : String) = "_processed" ++ ".png" := rfl
      have he : fb ++ "_processed.png" = (fb ++ "_processed") ++ ".png" := by
        rw [String.append_assoc, ← h0]
      rw [he]
      exact pjoin_png od (fb ++ "_processed")
  · rw [if_neg h]
    exact ⟨pjoin_png od (fb ++ "_original_page_" ++ Nat.repr (i + 1)),
      pjoin_png od (fb ++ "_processed_page_" ++ Nat.repr (i + 1))⟩

/-- Every file written by the per-page debug dump is a `.png` path. -/
theorem dumpPageImages_png (saveOk : String → Bool) (od fb : String)
    (total i : Nat) :
    ∀ f ∈ dumpPageImages saveOk od fb total i, ∃ p, f = p ++ ".png" := by
  intro f hf
  obtain ⟨⟨p, hp⟩, ⟨q, hq⟩⟩ := pageImagePaths_png od fb total i
  unfold dumpPageImages at hf
  rcases hP : pageImagePaths od fb total i with ⟨o, pr⟩
  rw [hP] at hf hp hq
  dsimp at hf hp hq
  by_cases hso : saveOk o = true
  · rw [if_pos hso] at hf
    by_cases hsp : saveOk pr = true
    · rw [if_pos hsp] at hf
      simp only [List.mem_cons, List.not_mem_nil, or_false] at hf
      rcases hf with hf | hf
      · exact ⟨p, by rw [hf, hp]⟩
      · exact ⟨q, by rw [hf, hq]⟩
    · rw [if_neg hsp] at hf
      simp only [List.mem_singleton] at hf
      exact ⟨p, by rw [hf, hp]⟩
  · rw [if_neg hso] at hf
    simp at hf

/-- Every file accumulated by the page loop from a `.png`-only accumulator is
a `.png` path. -/
theorem foldl_ocrPageStep_png {Img : Type} (env : OcrEnv Img)
    (od fb : Option String) (total : Nat) :
    ∀ (pairs : List (Nat × Img)) (acc : String × List String),
      (∀ f ∈ acc.2, ∃ p, f = p ++ ".png") →
      ∀ f ∈ (pairs.foldl (ocrPageStep env od fb total) acc).2,
        ∃ p, f = p ++ ".png" := by
  intro pairs
  induction pairs with
  | nil => intro acc hacc; simpa using hacc
  | cons pr rest ih =>
    intro acc hacc
    rw [List.foldl_cons]
    apply ih
    intro f hf
    rcases pr with ⟨i, image⟩
    unfold ocrPageStep at hf
    dsimp at hf
    rw [List.mem_append] at hf
    rcases hf with hf | hf
    · exact hacc f hf
    · by_cases hc : optTruthy od ∧ optTruthy fb
      · rw [if_pos hc] at hf
        exact dumpPageImages_png _ _ _ _ _ f hf
      · rw [if_neg hc] at hf
        simp at hf

/-- Every file the OCR stage writes is a `.png` path. -/
theorem extract_text_ocr_writes_png {Img : Type} (env : OcrEnv Img)
    (od fb : Option String) :
    ∀ f ∈ (extract_text_ocr env od fb).2, ∃ p, f = p ++ ".png" := by
  unfold extract_text_ocr
  cases hc : env.convert with
  | error e => simp
  | ok images =>
    dsimp only
    intro f hf
    apply foldl_ocrPageStep_png env od fb images.length images.enum ("", [])
      (by simp)
    rcases hF : images.enum.foldl (ocrPageStep env od fb images.length)
      ("", []) with ⟨t, w⟩
    rw [hF] at hf
    simpa using hf

/-- C1 (counterexample): a one-page PDF whose OCR yields no text makes
`parse_and_save` return the "no meaningful text" failure, yet two debug-image
files have already been written to the output directory. -/
theorem claim_C1_counterexample :
    (parse_and_save (parseEnvWith "") "in/doc.pdf" "out").1.success = false ∧
    (parse_and_save (parseEnvWith "") "in/doc.pdf" "out").1.error =
      some "No meaningful text extracted via enhanced OCR" ∧
    (parse_and_save (parseEnvWith "") "in/doc.pdf" "out").2 =
      ["out/doc_original.png", "out/doc_processed.png"] := by
  refine ⟨rfl, rfl, rfl⟩

/-- C1 (amended): for an existing PDF whose extracted trimmed text is shorter
than 10 characters, `parse_and_save` returns the "no meaningful text" failure
and writes no text or info artifact — the only files written are the per-page
debug images (`.png`) already dumped by the OCR stage. -/
theorem claim_C1_short_text_failure {Img : Type} (env : ParseEnv Img)
    (pdfPath outputDir : String)
    (hex : env.pdf_exists = true)
    (hshort : (pyStripStr (extract_text_ocr env.ocr (some outputDir)
        (some (pySplitextRoot (pyBasename pdfPath)))).1).length < 10) :
    (parse_and_save env pdfPath outputDir).1.success = false ∧
    (parse_and_save env pdfPath outputDir).1.error =
      some "No meaningful text extracted via enhanced OCR" ∧
    (parse_and_save env pdfPath outputDir).2 =
      (extract_text_ocr env.ocr (some outputDir)
        (some (pySplitextRoot (pyBasename pdfPath)))).2 ∧
    ∀ f ∈ (parse_and_save env pdfPath outputDir).2, ∃ p, f = p ++ ".png" := by
  have hpng := extract_text_ocr_writes_png env.ocr (some outputDir)
    (some (pySplitextRoot (pyBasename pdfPath)))
  unfold parse_and_save
  rw [hex]
  rw [if_neg (by simp)]
  dsimp only
  rcases hE : extract_text_ocr env.ocr (some outputDir)
      (some (pySplitextRoot (pyBasename pdfPath))) with ⟨t, w⟩
  rw [hE] at hshort hpng
  dsimp only at hshort hpng ⊢
  rw [if_pos (Or.inr hshort)]
  exact ⟨rfl, rfl, rfl, hpng⟩

/-- Witness for C1 (amended) at the concrete empty-OCR environment. -/
theorem claim_C1_short_text_failure_witness :
    (parse_and_save (parseEnvWith "") "in/doc.pdf" "out").2 =
      (extract_text_ocr (parseEnvWith "").ocr (some "out")
        (some (pySplitextRoot (pyBasename "in/doc.pdf")))).2 :=
  (claim_C1_short_text_failure (parseEnvWith "") "in/doc.pdf" "out" rfl
    (by decide)).2.2.1

/-- C2 (counterexample): a successful one-page parse writes four files to the
output directory — the two debug images in addition to the text and info
artifacts — not exactly two. -/
theorem claim_C2_counterexample :
    (parse_and_save (parseEnvWith "INVOICE 12345 received")
        "in/doc.pdf" "out").1.success = true ∧
    (parse_and_save (parseEnvWith "INVOICE 12345 received")
        "in/doc.pdf" "out").2 =
      ["out/doc_original.png", "out/doc_processed.png",
       "out/doc.txt", "out/doc_info.txt"] ∧
    (parse_and_save (parseEnvWith "INVOICE 12345 received")
        "in/doc.pdf" "out").2.length ≠ 2 := by
  refine ⟨rfl, rfl, by decide⟩

/-- C2 (amended): for an existing PDF whose extracted trimmed text has at
least 10 characters and whose artifact writes succeed, `parse_and_save`
returns success with `text_length` equal to the length of the concatenated
extracted text, and the files written are the per-page debug images followed
by exactly the two text artifacts `<base>.txt` and `<base>_info.txt`. -/
theorem claim_C2_success_two_artifacts {Img : Type} (env : ParseEnv Img)
    (pdfPath outputDir : String)
    (hex : env.pdf_exists = true)
    (hlong : 10 ≤ (pyStripStr (extract_text_ocr env.ocr (some outputDir)
        (some (pySplitextRoot (pyBasename pdfPath)))).1).length)
    (htw : env.textWriteErr = none) (hiw : env.infoWriteErr = none) :
    (parse_and_save env pdfPath outputDir).1.success = true ∧
    (parse_and_save env pdfPath outputDir).1.text_length =
      some (extract_text_ocr env.ocr (some outputDir)
        (some (pySplitextRoot (pyBasename pdfPath)))).1.length ∧
    (parse_and_save env pdfPath outputDir).1.text_file =
      some (pjoin outputDir (pySplitextRoot (pyBasename pdfPath) ++ ".txt")) ∧
    (parse_and_save env pdfPath outputDir).1.info_file =
      some (pjoin outputDir (pySplitextRoot (pyBasename pdfPath) ++ "_info.txt")) ∧
    (parse_and_save env pdfPath outputDir).2 =
      (extract_text_ocr env.ocr (some outputDir)
        (some (pySplitextRoot (pyBasename pdfPath)))).2 ++
      [pjoin outputDir (pySplitextRoot (pyBasename pdfPath) ++ ".txt"),
       pjoin outputDir (pySplitextRoot (pyBasename pdfPath) ++ "_info.txt")] := by
  unfold parse_and_save
  rw [hex]
  rw [if_neg (by simp)]
  dsimp only
  rcases hE : extract_text_ocr env.ocr (some outputDir)
      (some (pySplitextRoot (pyBasename pdfPath))) with ⟨t, w⟩
  rw [hE] at hlong
  dsimp only at hlong ⊢
  have hcond : ¬ (t = "" ∨ (pyStripStr t).length < 10) := by
    rintro (h | h)
    · rw [h] at hlong
      exact absurd hlong (by decide)
    · omega
  rw [if_neg hcond, htw, hiw]
  refine ⟨rfl, rfl, rfl, rfl, ?_⟩
  rw [List.append_assoc]
  rfl

/-- Witness for C2 (amended) at the concrete successful environment. -/
theorem claim_C2_success_two_artifacts_witness :
    (parse_and_save (parseEnvWith "INVOICE 12345 received")
        "in/doc.pdf" "out").1.success = true ∧
    (parse_and_save (parseEnvWith "INVOICE 12345 received")
        "in/doc.pdf" "out").1.text_length = some 37 := by
  have h := claim_C2_success_two_artifacts (parseEnvWith "INVOICE 12345 received")
    "in/doc.pdf" "out" rfl (by decide) rfl rfl
  exact ⟨h.1, h.2.1.trans (by decide)⟩

/-- Every token produced by the whitespace split is non-empty and free of
whitespace characters. -/
theorem pyWsSplitAux_tokens (fuel : Nat) :
    ∀ (l : List Char), ∀ t ∈ pyWsSplitAux fuel l,
      t ≠ [] ∧ ∀ c ∈ t, c.isWhitespace = false := by
  induction fuel with
  | zero =>
    intro l t ht
    cases l with
    | nil => simp [pyWsSplitAux] at ht
    | cons c rest => simp [pyWsSplitAux] at ht
  | succ fuel ih =>
    intro l t ht
    cases l with
    | nil => simp [pyWsSplitAux] at ht
    | cons c rest =>
      rw [pyWsSplitAux] at ht
      by_cases hws : Char.isWhitespace c
      · rw [if_pos hws] at ht
        exact ih rest t ht
      · rw [if_neg hws] at ht
        rcases List.mem_cons.mp ht with ht | ht
        · subst ht
          refine ⟨by simp, ?_⟩
          intro d hd
          rcases List.mem_cons.mp hd with hd | hd
          · subst hd
            exact Bool.eq_false_iff.mpr hws
          · have := List.mem_takeWhile_imp hd
            simpa using this
        · exact ih _ t ht

/-- Tokens of `pyWsSplit` are non-empty and whitespace-free. -/
theorem pyWsSplit_tokens (l : List Char) :
    ∀ t ∈ pyWsSplit l, t ≠ [] ∧ ∀ c ∈ t, c.isWhitespace = false :=
  pyWsSplitAux_tokens l.length l

/-- A list with no whitespace characters trivially satisfies the
no-two-adjacent-whitespace chain. -/
theorem chain'_of_all_nonws (l : List Char)
    (h : ∀ c ∈ l, c.isWhitespace = false) :
    List.Chain' (fun a b => ¬ (a.isWhitespace = true ∧ b.isWhitespace = true)) l := by
  induction l with
  | nil => simp
  | cons a l ih =>
    rw [List.chain'_cons']
    refine ⟨?_, ih fun c hc => h c (List.mem_cons_of_mem a hc)⟩
    intro y _
    intro hcontra
    have := h a (List.mem_cons_self a l)
    rw [this] at hcontra
    exact absurd hcontra.1 (by simp)

/-- Joining non-empty whitespace-free tokens with single spaces yields text
whose whitespace characters are all single separating spaces: every
whitespace character is a space, no two adjacent characters are both
whitespace, and the first and last characters are not whitespace. -/
theorem flatTokens_good (ts : List (List Char))
    (h : ∀ t ∈ ts, t ≠ [] ∧ ∀ c ∈ t, c.isWhitespace = false) :
    (∀ c ∈ (ts.intersperse [' ']).flatten, c.isWhitespace = true → c = ' ') ∧
    List.Chain' (fun a b => ¬ (a.isWhitespace = true ∧ b.isWhitespace = true))
      (ts.intersperse [' ']).flatten ∧
    (∀ c, ((ts.intersperse [' ']).flatten).head? = some c →
      c.isWhitespace = false) ∧
    (∀ c, ((ts.intersperse [' ']).flatten).getLast? = some c →
      c.isWhitespace = false) := by
  induction ts with
  | nil => simp
  | cons t ts ih =>
    have ht := h t (List.mem_cons_self t ts)
    cases ts with
    | nil =>
      simp only [List.intersperse_single, List.flatten, List.append_nil]
      refine ⟨?_, ?_, ?_, ?_⟩
      · intro c hc hw
        exact absurd hw (by rw [(ht.2 c hc)]; simp)
      · exact chain'_of_all_nonws t ht.2
      · intro c hc
        exact ht.2 c (List.mem_of_mem_head? hc)
      · intro c hc
        exact ht.2 c (List.mem_of_mem_getLast? hc)
    | cons t2 ts2 =>
      have h2 : ∀ u ∈ t2 :: ts2, u ≠ [] ∧ ∀ c ∈ u, c.isWhitespace = false :=
        fun u hu => h u (List.mem_cons_of_mem t hu)
      have ih2 := ih h2
      have hflat : ((t :: t2 :: ts2).intersperse [' ']).flatten =
          t ++ ' ' :: ((t2 :: ts2).intersperse [' ']).flatten := by
        simp [List.intersperse_cons_cons, List.flatten]
      have hne : ((t2 :: ts2).intersperse [' ']).flatten ≠ [] := by
        have h22 := h2 t2 (List.mem_cons_self t2 ts2)
        cases ts2 with
        | nil =>
          simpa [List.intersperse_single, List.flatten] using h22.1
        | cons t3 ts3 =>
          simp only [List.intersperse_cons_cons, List.flatten]
          intro hc
          rcases List.append_eq_nil.mp hc with ⟨h1, _⟩
          exact h22.1 h1
      rw [hflat]
      refine ⟨?_, ?_, ?_, ?_⟩
      · intro c hc hw
        rcases List.mem_append.mp hc with hc | hc
        · exact absurd hw (by rw [ht.2 c hc]; simp)
        · rcases List.mem_cons.mp hc with hc | hc
          · exact hc
          · exact ih2.1 c hc hw
      · rw [List.chain'_append]
        refine ⟨chain'_of_all_nonws t ht.2, ?_, ?_⟩
        · rw [List.chain'_cons']
          refine ⟨?_, ih2.2.1⟩
          intro y hy
          intro hcontra
          have := ih2.2.2.1 y hy
          rw [this] at hcontra
          exact absurd hcontra.2 (by simp)
        · intro x hx y hy
          intro hcontra
          have := ht.2 x (List.mem_of_mem_getLast? hx)
          rw [this] at hcontra
          exact absurd hcontra.1 (by simp)
      · intro c hc
        cases hT : t with
        | nil => exact absurd hT ht.1
        | cons a t' =>
          rw [hT] at hc
          simp only [List.cons_append, List.head?_cons, Option.some.injEq] at hc
          subst hc
          exact ht.2 a (by rw [hT]; exact List.mem_cons_self a t')
      · intro c hc
        rw [List.getLast?_append_of_ne_nil _ (by simp)] at hc
        cases hR : ((t2 :: ts2).intersperse [' ']).flatten with
        | nil => exact absurd hR hne
        | cons r rest =>
          rw [hR, List.getLast?_cons_cons] at hc
          exact ih2.2.2.2 c (hR ▸ hc)

/-- Dropping leading whitespace does nothing when the head is not whitespace. -/
theorem dropWhile_ws_eq_self (l : List Char)
    (h : ∀ c, l.head? = some c → c.isWhitespace = false) :
    l.dropWhile Char.isWhitespace = l := by
  cases l with
  | nil => rfl
  | cons a l =>
    rw [List.dropWhile_cons, if_neg]
    rw [h a rfl]
    simp

/-- Python `strip` is the identity on text whose first and last characters are
not whitespace. -/
theorem pyStrip_eq_self (l : List Char)
    (hh : ∀ c, l.head? = some c → c.isWhitespace = false)
    (hl : ∀ c, l.getLast? = some c → c.isWhitespace = false) :
    pyStrip l = l := by
  unfold pyStrip dropLeadWs
  rw [dropWhile_ws_eq_self l hh]
  rw [dropWhile_ws_eq_self l.reverse (by
    intro c hc
    rw [List.head?_reverse] at hc
    exact hl c hc)]
  exact List.reverse_reverse l

/-- C9: for every page whose OCR output is non-empty after trimming, the block
appended under the page marker is the whitespace-collapsed page text: every
whitespace run (line breaks included) becomes one single space, so the stored
body contains no newline, no whitespace other than spaces, and no two adjacent
whitespace characters — the OCR output's line structure is not preserved. -/
theorem claim_C9_whitespace_collapse (i : Nat) (pageText : String)
    (h : pyStripStr pageText ≠ "") :
    pageContribution i pageText =
      "--- Page " ++ Nat.repr (i + 1) ++ " ---\n" ++
        pyCollapseWs pageText ++ "\n\n" ∧
    (∀ c ∈ (pyCollapseWs pageText).data, c.isWhitespace = true → c = ' ') ∧
    List.Chain' (fun a b => ¬ (a.isWhitespace = true ∧ b.isWhitespace = true))
      (pyCollapseWs pageText).data ∧
    '\n' ∉ (pyCollapseWs pageText).data := by
  have hgood := flatTokens_good (pyWsSplit pageText.data)
    (pyWsSplit_tokens pageText.data)
  have hdata : (pyCollapseWs pageText).data =
      ((pyWsSplit pageText.data).intersperse [' ']).flatten := rfl
  have hstrip : pyStripStr (pyCollapseWs pageText) = pyCollapseWs pageText := by
    show (⟨pyStrip (pyCollapseWs pageText).data⟩ : String) = pyCollapseWs pageText
    rw [pyStrip_eq_self (pyCollapseWs pageText).data
      (by rw [hdata]; exact hgood.2.2.1) (by rw [hdata]; exact hgood.2.2.2)]
  refine ⟨?_, ?_, ?_, ?_⟩
  · unfold pageContribution
    rw [if_pos h, hstrip]
  · rw [hdata]
    exact hgood.1
  · rw [hdata]
    exact hgood.2.1
  · intro hc
    rw [hdata] at hc
    have h2 := hgood.1 '\n' hc (by decide)
    exact absurd h2 (by decide)

/-- Witness for C9 at a concrete two-line page text: the line break becomes a
single space and the stored body has no newline. -/
theorem claim_C9_witness :
    pageContribution 0 "line1\nline2" = "--- Page 1 ---\nline1 line2\n\n" ∧
    '\n' ∉ (pyCollapseWs "line1\nline2").data := by
  have h := claim_C9_whitespace_collapse 0 "line1\nline2" (by decide)
  exact ⟨h.1.trans (by decide), h.2.2.2⟩

set_option maxRecDepth 4096 in
/-- The line-assembled `metadata_header` matches the f-string of the source
verbatim (checked at sample values). -/
theorem metadata_header_flat_check :
    metadata_header "F.pdf" "in/F.pdf" 3 "MT" "TS" "out" 42 =
      "=== DOCUMENT METADATA ===\n" ++
      "\n" ++
      "        Original Filename: F.pdf\n" ++
      "        Original File Path: in/F.pdf\n" ++
      "        File Size: 3 bytes\n" ++
      "        File Modified: MT\n" ++
      "        Processing Timestamp: TS\n" ++
      "        Extraction Method: Enhanced OCR (Tesseract with Advanced Preprocessing)\n" ++
      "        OCR Configuration: Multiple PSM modes with confidence-based selection\n" ++
      "        Image Preprocessing: Gaussian blur, adaptive thresholding, morphological operations, sharpening, contrast/brightness enhancement\n" ++
      "        Output Directory: out\n" ++
      "        Processed Images: Saved both original and processed images for each page\n" ++
      "        Text Length: 42 characters\n" ++
      "        Parser Version: PDFTextParser v2.0 (Enhanced)\n" ++
      "        === END METADATA ===\n" ++
      "\n" ++
      "        === EXTRACTED TEXT CONTENT ===\n" ++
      "        " := rfl

/-- `pySplitOnAux` is independent of the fuel once it covers the input. -/
theorem pySplitOnAux_fuel (sep : List Char) :
    ∀ (fuel fuel' : Nat) (s : List Char), s.length ≤ fuel → s.length ≤ fuel' →
      pySplitOnAux sep fuel s = pySplitOnAux sep fuel' s := by
  intro fuel
  induction fuel with
  | zero =>
    intro fuel' s hf hf'
    have : s = [] := List.length_eq_zero.mp (Nat.le_zero.mp hf)
    subst this
    cases fuel' <;> rfl
  | succ fuel ih =>
    intro fuel' s hf hf'
    cases s with
    | nil => cases fuel' <;> rfl
    | cons c rest =>
      cases fuel' with
      | zero => simp at hf'
      | succ fuel'' =>
        simp only [pySplitOnAux]
        by_cases hc : sep ≠ [] ∧ sep.isPrefixOf (c :: rest)
        · rw [if_pos hc, if_pos hc]
          have hlen : (List.drop (sep.length - 1) rest).length ≤ fuel := by
            simp only [List.length_drop]
            simp only [List.length_cons] at hf
            omega
          have hlen' : (List.drop (sep.length - 1) rest).length ≤ fuel'' := by
            simp only [List.length_drop]
            simp only [List.length_cons] at hf'
            omega
          rw [ih fuel'' _ hlen hlen']
        · rw [if_neg hc, if_neg hc]
          have hlen : rest.length ≤ fuel := by
            simp only [List.length_cons] at hf
            omega
          have hlen' : rest.length ≤ fuel'' := by
            simp only [List.length_cons] at hf'
            omega
          rw [ih fuel'' rest hlen hlen']

/-- When the separator occurs nowhere, the split is the whole string alone. -/
theorem pySplitOnAux_no_occ (sep : List Char) :
    ∀ (fuel : Nat) (s : List Char), s.length ≤ fuel →
      (∀ i, ¬ sep <+: s.drop i) → pySplitOnAux sep fuel s = [s] := by
  intro fuel
  induction fuel with
  | zero =>
    intro s hf _
    have : s = [] := List.length_eq_zero.mp (Nat.le_zero.mp hf)
    subst this
    rfl
  | succ fuel ih =>
    intro s hf hocc
    cases s with
    | nil => rfl
    | cons c rest =>
      simp only [pySplitOnAux]
      rw [if_neg]
      · rw [ih rest (by simp only [List.length_cons] at hf; omega)
          (fun i => by simpa [List.drop_succ_cons] using hocc (i + 1))]
      · rintro ⟨-, hpre⟩
        exact hocc 0 (by simpa using List.isPrefixOf_iff_prefix.mp hpre)

/-- The split never returns an empty list of parts. -/
theorem pySplitOn_ne_nil (sep s : List Char) : pySplitOn sep s ≠ [] := by
  unfold pySplitOn
  cases s with
  | nil => simp [pySplitOnAux]
  | cons c rest =>
    simp only [List.length_cons, pySplitOnAux]
    by_cases hc : sep ≠ [] ∧ sep.isPrefixOf (c :: rest)
    · rw [if_pos hc]
      simp
    · rw [if_neg hc]
      cases pySplitOnAux sep rest.length rest <;> simp

/-- Splitting at the first separator occurrence: when no occurrence starts
inside `a`, the split of `a ++ sep ++ b` is `a` followed by the split of `b`. -/
theorem pySplitOnAux_first (sep : List Char) (hsep : sep ≠ []) :
    ∀ (a : List Char) (fuel : Nat) (b : List Char),
      (a ++ sep ++ b).length ≤ fuel →
      (∀ i, i < a.length → ¬ sep <+: ((a ++ sep ++ b).drop i)) →
      pySplitOnAux sep fuel (a ++ sep ++ b) =
        a :: pySplitOnAux sep b.length b := by
  intro a
  induction a with
  | nil =>
    intro fuel b hf _
    simp only [List.nil_append] at hf ⊢
    cases hS : sep with
    | nil => exact absurd hS hsep
    | cons c s' =>
      subst hS
      cases fuel with
      | zero => simp at hf
      | succ fuel =>
        simp only [List.cons_append, pySplitOnAux, List.append_eq]
        rw [if_pos ⟨hsep, List.isPrefixOf_iff_prefix.mpr (by
          rw [← List.cons_append]
          exact List.prefix_append _ _)⟩]
        congr 1
        have hdrop : List.drop ((c :: s').length - 1) (s' ++ b) = b := by
          have h1 : (c :: s').length - 1 = s'.length := by simp
          rw [h1, List.drop_left]
        rw [hdrop]
        have hb : b.length ≤ fuel := by
          simp only [List.cons_append, List.length_cons, List.length_append] at hf
          omega
        exact pySplitOnAux_fuel (c :: s') fuel b.length b hb (Nat.le_refl _)
  | cons x a' ih =>
    intro fuel b hf hocc
    cases fuel with
    | zero => simp at hf
    | succ fuel =>
      simp only [List.cons_append, pySplitOnAux, List.append_eq]
      rw [if_neg]
      · have hrec := ih fuel b
          (by simp only [List.cons_append, List.length_cons] at hf; omega)
          (fun i hi => by
            simpa [List.drop_succ_cons] using hocc (i + 1) (by simpa using hi))
        rw [hrec]
      · rintro ⟨-, hpre⟩
        have h0 := hocc 0 (by simp)
        simp only [List.drop_zero] at h0
        exact h0 (by simpa [List.cons_append] using
          List.isPrefixOf_iff_prefix.mp hpre)

/-- `pySplitOn` at the first separator occurrence. -/
theorem pySplitOn_split (sep a b : List Char) (hsep : sep ≠ [])
    (hocc : ∀ i, i < a.length → ¬ sep <+: ((a ++ sep ++ b).drop i)) :
    pySplitOn sep (a ++ sep ++ b) = a :: pySplitOn sep b := by
  unfold pySplitOn
  exact pySplitOnAux_first sep hsep a _ b (Nat.le_refl _) hocc

/-- A single-character separator has no occurrence in newline-free text. -/
theorem no_nl_occ (a : List Char) (ha : '\n' ∉ a) :
    ∀ i, ¬ (['\n'] <+: a.drop i) := by
  intro i hpre
  obtain ⟨tl, htl⟩ := hpre
  have : '\n' ∈ a.drop i := by
    rw [← htl]
    simp
  exact ha (List.mem_of_mem_drop this)

/-- Splitting newline-free text on newlines yields the text alone. -/
theorem pySplitOn_nl_single (a : List Char) (ha : '\n' ∉ a) :
    pySplitOn ['\n'] a = [a] := by
  unfold pySplitOn
  exact pySplitOnAux_no_occ ['\n'] a.length a (Nat.le_refl _) (no_nl_occ a ha)

/-- Splitting at the first newline after a newline-free line. -/
theorem pySplitOn_nl (a b : List Char) (ha : '\n' ∉ a) :
    pySplitOn ['\n'] (a ++ '\n' :: b) = a :: pySplitOn ['\n'] b := by
  have hform : a ++ '\n' :: b = a ++ ['\n'] ++ b := by simp
  rw [hform]
  apply pySplitOn_split ['\n'] a b (by simp)
  intro i hi hpre
  obtain ⟨tl, htl⟩ := hpre
  have hdrop : (a ++ ['\n'] ++ b).drop i = a.drop i ++ (['\n'] ++ b) := by
    rw [List.append_assoc, List.drop_append_of_le_length (Nat.le_of_lt hi)]
  rw [hdrop] at htl
  have hne : a.drop i ≠ [] := by
    intro hnil
    rw [List.drop_eq_nil_iff] at hnil
    omega
  cases hD : a.drop i with
  | nil => exact hne hD
  | cons d ds =>
    rw [hD] at htl
    simp only [List.singleton_append, List.cons_append, List.cons.injEq] at htl
    have : d ∈ a := by
      have : d ∈ a.drop i := by rw [hD]; simp
      exact List.mem_of_mem_drop this
    rw [← htl.1] at this
    exact ha this

/-- Unfolding `joinLines` on two or more lines. -/
theorem joinLines_cons (l l2 : String) (ls : List String) :
    joinLines (l :: l2 :: ls) = l ++ "\n" ++ joinLines (l2 :: ls) := rfl

/-- `joinLines` distributes over concatenation of non-empty line lists. -/
theorem joinLines_append (ls ms : List String) (h1 : ls ≠ []) (h2 : ms ≠ []) :
    joinLines (ls ++ ms) = joinLines ls ++ "\n" ++ joinLines ms := by
  induction ls with
  | nil => exact absurd rfl h1
  | cons l ls ih =>
    cases ls with
    | nil =>
      cases ms with
      | nil => exact absurd rfl h2
      | cons m ms => rfl
    | cons l2 ls2 =>
      rw [show (l :: l2 :: ls2) ++ ms = l :: l2 :: (ls2 ++ ms) from rfl]
      rw [joinLines_cons l l2 (ls2 ++ ms), joinLines_cons l l2 ls2]
      have ihh := ih (by simp)
      rw [show l2 :: ls2 ++ ms = l2 :: (ls2 ++ ms) from rfl] at ihh
      rw [ihh]
      simp [String.append_assoc]

/-- Data of a line join, one line peeled. -/
theorem joinLines_data_cons (l l2 : String) (ls : List String) :
    (joinLines (l :: l2 :: ls)).data = l.data ++ '\n' :: (joinLines (l2 :: ls)).data := by
  rw [joinLines_cons]
  simp [String.data_append]

/-- Splitting a newline join of newline-free lines recovers the lines. -/
theorem pySplitOn_joinLines :
    ∀ (ls : List String), ls ≠ [] → (∀ l ∈ ls, '\n' ∉ l.data) →
      pySplitOn ['\n'] (joinLines ls).data = ls.map String.data := by
  intro ls
  induction ls with
  | nil => intro h; exact absurd rfl h
  | cons l ls ih =>
    intro _ h
    cases ls with
    | nil =>
      show pySplitOn ['\n'] l.data = [l.data]
      exact pySplitOn_nl_single l.data (h l (List.mem_cons_self l []))
    | cons l2 ls2 =>
      rw [joinLines_data_cons, pySplitOn_nl _ _ (h l (List.mem_cons_self l _))]
      rw [ih (by simp) (fun x hx => h x (List.mem_cons_of_mem _ hx))]
      rfl

/-- Digit characters are never whitespace. -/
theorem digitChar_not_ws : ∀ (m : Nat), (Nat.digitChar m).isWhitespace = false
  | 0 => rfl
  | 1 => rfl
  | 2 => rfl
  | 3 => rfl
  | 4 => rfl
  | 5 => rfl
  | 6 => rfl
  | 7 => rfl
  | 8 => rfl
  | 9 => rfl
  | 10 => rfl
  | 11 => rfl
  | 12 => rfl
  | 13 => rfl
  | 14 => rfl
  | 15 => rfl
  | (_ + 16) => rfl

/-- Characters accumulated by `Nat.toDigitsCore` over a whitespace-free
accumulator are whitespace-free. -/
theorem toDigitsCore_not_ws (b : Nat) :
    ∀ (fuel n : Nat) (acc : List Char), (∀ c ∈ acc, c.isWhitespace = false) →
      ∀ c ∈ Nat.toDigitsCore b fuel n acc, c.isWhitespace = false := by
  intro fuel
  induction fuel with
  | zero =>
    intro n acc hacc c hc
    exact hacc c hc
  | succ fuel ih =>
    intro n acc hacc c hc
    rw [Nat.toDigitsCore] at hc
    by_cases hq : n / b = 0
    · rw [if_pos hq] at hc
      rcases List.mem_cons.mp hc with hc | hc
      · rw [hc]
        exact digitChar_not_ws _
      · exact hacc c hc
    · rw [if_neg hq] at hc
      refine ih _ _ (fun d hd => ?_) c hc
      rcases List.mem_cons.mp hd with hd | hd
      · rw [hd]
        exact digitChar_not_ws _
      · exact hacc d hd

/-- `Nat.toDigitsCore` yields the empty list only from an empty accumulator. -/
theorem toDigitsCore_eq_nil (b : Nat) :
    ∀ (fuel n : Nat) (acc : List Char),
      Nat.toDigitsCore b fuel n acc = [] → acc = [] := by
  intro fuel
  induction fuel with
  | zero =>
    intro n acc h
    exact h
  | succ fuel ih =>
    intro n acc h
    rw [Nat.toDigitsCore] at h
    by_cases hq : n / b = 0
    · rw [if_pos hq] at h
      exact absurd h (by simp)
    · rw [if_neg hq] at h
      have := ih _ _ h
      exact absurd this (by simp)

/-- The characters of `Nat.repr` are whitespace-free. -/
theorem repr_not_ws (n : Nat) : ∀ c ∈ (Nat.repr n).data, c.isWhitespace = false := by
  intro c hc
  have hd : (Nat.repr n).data = Nat.toDigitsCore 10 (n + 1) n [] := rfl
  rw [hd] at hc
  exact toDigitsCore_not_ws 10 (n + 1) n [] (by simp) c hc

/-- `Nat.repr` is never empty. -/
theorem repr_data_ne_nil (n : Nat) : (Nat.repr n).data ≠ [] := by
  intro h
  have hd : (Nat.repr n).data = Nat.toDigitsCore 10 (n + 1) n [] := rfl
  rw [hd] at h
  have := toDigitsCore_eq_nil 10 (n + 1) n [] h
  rw [Nat.toDigitsCore] at h
  by_cases hq : n / 10 = 0
  · rw [if_pos hq] at h
    simp at h
  · rw [if_neg hq] at h
    have h2 := toDigitsCore_eq_nil 10 n (n / 10) _ h
    simp at h2

/-- Newlines do not occur in `Nat.repr`. -/
theorem nl_not_mem_repr (n : Nat) : '\n' ∉ (Nat.repr n).data := by
  intro h
  have := repr_not_ws n '\n' h
  simp at this

/-- `takeWhile` up to the first colon of `k ++ ':' :: w` is `k` when `k` is
colon-free. -/
theorem takeWhile_until_colon (k w : List Char) (hk : ∀ c ∈ k, c ≠ ':') :
    (k ++ ':' :: w).takeWhile (· ≠ ':') = k := by
  induction k with
  | nil => simp [List.takeWhile_cons]
  | cons c k ih =>
    rw [List.cons_append, List.takeWhile_cons]
    have hc : c ≠ ':' := hk c (List.mem_cons_self c k)
    rw [if_pos (by simp [hc])]
    rw [ih (fun d hd => hk d (List.mem_cons_of_mem c hd))]

/-- `dropWhile` up to the first colon of `k ++ ':' :: w`. -/
theorem dropWhile_until_colon (k w : List Char) (hk : ∀ c ∈ k, c ≠ ':') :
    (k ++ ':' :: w).dropWhile (· ≠ ':') = ':' :: w := by
  induction k with
  | nil => simp [List.dropWhile_cons]
  | cons c k ih =>
    rw [List.cons_append, List.dropWhile_cons]
    have hc : c ≠ ':' := hk c (List.mem_cons_self c k)
    rw [if_pos (by simp [hc])]
    exact ih (fun d hd => hk d (List.mem_cons_of_mem c hd))

/-- `"==="` is no prefix of a string whose first three characters differ. -/
theorem not_prefix3 (k m : List Char) (h3 : 3 ≤ k.length)
    (hk3 : k.take 3 ≠ "===".data) :
    ("===".data.isPrefixOf (k ++ m)) = false := by
  rw [Bool.eq_false_iff]
  intro h
  have hp := List.isPrefixOf_iff_prefix.mp h
  have htake := List.prefix_iff_eq_take.mp hp
  have hlen : ("===" : String).data.length = 3 := rfl
  rw [hlen, List.take_append_of_le_length h3] at htake
  exact hk3 (by rw [← htake])

/-- A `key: value` line contributes `(key.strip(), value.strip())`. -/
theorem headerLineStep_keyval (acc : List (String × String)) (line : String)
    (k w : List Char) (hshape : line.data = k ++ ':' :: w)
    (hk : ∀ c ∈ k, c ≠ ':') (h3 : 3 ≤ k.length)
    (hk3 : k.take 3 ≠ "===".data) :
    headerLineStep acc line = acc ++ [(⟨pyStrip k⟩, ⟨pyStrip w⟩)] := by
  unfold headerLineStep
  rw [hshape]
  rw [if_pos]
  · rw [takeWhile_until_colon k w hk, dropWhile_until_colon k w hk]
    simp
  · constructor
    · have : ':' ∈ k ++ ':' :: w := by simp
      exact List.elem_eq_true_of_mem this
    · rw [show (':' :: w) = [':'] ++ w from rfl, ← List.append_assoc]
      rw [not_prefix3 (k ++ [':']) w (by simp; omega)
        (by rw [List.take_append_of_le_length h3]; exact hk3)]
      simp

/-- A line without the `key: value` shape contributes nothing. -/
theorem headerLineStep_skip (acc : List (String × String)) (line : String)
    (hcond : ¬ (line.data.contains ':' ∧ ¬ ("===".data.isPrefixOf line.data))) :
    headerLineStep acc line = acc := by
  unfold headerLineStep
  rw [if_neg hcond]

/-- A prefix occurrence makes `listContainsSub` true. -/
theorem listContainsSub_of_isPrefixOf (sub l : List Char)
    (h : sub.isPrefixOf l = true) : listContainsSub sub l = true := by
  cases l with
  | nil => simpa [listContainsSub] using h
  | cons c rest => simp [listContainsSub, h]

/-- The artifact content decomposed at the text-content marker. -/
theorem final_content_decomp (fn path : String) (sz : Nat) (mt ts od txt : String) :
    (final_content fn path sz mt ts od txt).data =
      metadata_preamble fn path sz mt ts od txt.length ++
        (("=== EXTRACTED TEXT CONTENT ===" : String).data ++
          ('\n' :: ("        ".data ++ txt.data ++
            ("\n\n=== END DOCUMENT ===" : String).data))) := by
  unfold final_content metadata_header metadata_preamble
  rw [joinLines_append _ _ (by simp [metadata_key_lines]) (by simp)]
  rw [show joinLines ["        === EXTRACTED TEXT CONTENT ===", "        "] =
    "        === EXTRACTED TEXT CONTENT ===" ++ "\n" ++ "        " from rfl]
  simp only [String.data_append]
  simp [List.append_assoc]

/-- `String.mk` after `String.data` is the identity on a list of strings. -/
theorem map_mk_data (ls : List String) :
    (ls.map String.data).map (fun l => (⟨l⟩ : String)) = ls := by
  induction ls with
  | nil => rfl
  | cons l ls ih =>
    simp only [List.map_cons]
    rw [ih]

/-- The header lines are newline-free under newline-free metadata values. -/
theorem header_lines_nl_free (fn path : String) (sz : Nat) (mt ts od : String)
    (len : Nat)
    (hfnl : '\n' ∉ fn.data) (hpl : '\n' ∉ path.data) (hml : '\n' ∉ mt.data)
    (htsl : '\n' ∉ ts.data) (hol : '\n' ∉ od.data) :
    ∀ l ∈ metadata_key_lines fn path sz mt ts od len ++ ["        "],
      '\n' ∉ l.data := by
  intro l hl
  simp only [metadata_key_lines, List.cons_append, List.nil_append,
    List.mem_cons, List.not_mem_nil, or_false] at hl
  rcases hl with h|h|h|h|h|h|h|h|h|h|h|h|h|h|h|h|h <;> subst h
  · decide
  · decide
  · simp only [String.data_append, List.mem_append]
    rintro (h | h)
    · revert h
      decide
    · exact hfnl h
  · simp only [String.data_append, List.mem_append]
    rintro (h | h)
    · revert h
      decide
    · exact hpl h
  · simp only [String.data_append, List.mem_append]
    rintro ((h | h) | h)
    · revert h
      decide
    · exact nl_not_mem_repr sz h
    · revert h
      decide
  · simp only [String.data_append, List.mem_append]
    rintro (h | h)
    · revert h
      decide
    · exact hml h
  · simp only [String.data_append, List.mem_append]
    rintro (h | h)
    · revert h
      decide
    · exact htsl h
  · decide
  · decide
  · decide
  · simp only [String.data_append, List.mem_append]
    rintro (h | h)
    · revert h
      decide
    · exact hol h
  · decide
  · simp only [String.data_append, List.mem_append]
    rintro ((h | h) | h)
    · revert h
      decide
    · exact nl_not_mem_repr len h
    · revert h
      decide
  · decide
  · decide
  · decide
  · decide

/-- Parsing the Stage-1 artifact's metadata header reconstructs the key/value
pairs of the written header (values still in raw stripped form). -/
theorem parse_header_fields (fn path : String) (sz : Nat) (mt ts od txt : String)
    (hfnl : '\n' ∉ fn.data) (hpl : '\n' ∉ path.data) (hml : '\n' ∉ mt.data)
    (htsl : '\n' ∉ ts.data) (hol : '\n' ∉ od.data)
    (hocc : ∀ i, i < (metadata_preamble fn path sz mt ts od txt.length).length →
      ¬ (("=== EXTRACTED TEXT CONTENT ===" : String).data <+:
        ((final_content fn path sz mt ts od txt).data.drop i))) :
    parse_artifact_metadata (final_content fn path sz mt ts od txt) =
      [("Original Filename", (⟨pyStrip (' ' :: fn.data)⟩ : String)),
       ("Original File Path", (⟨pyStrip (' ' :: path.data)⟩ : String)),
       ("File Size",
         (⟨pyStrip (' ' :: ((Nat.repr sz).data ++ (" bytes" : String).data))⟩ : String)),
       ("File Modified", (⟨pyStrip (' ' :: mt.data)⟩ : String)),
       ("Processing Timestamp", (⟨pyStrip (' ' :: ts.data)⟩ : String)),
       ("Extraction Method", "Enhanced OCR (Tesseract with Advanced Preprocessing)"),
       ("OCR Configuration", "Multiple PSM modes with confidence-based selection"),
       ("Image Preprocessing", "Gaussian blur, adaptive thresholding, morphological operations, sharpening, contrast/brightness enhancement"),
       ("Output Directory", (⟨pyStrip (' ' :: od.data)⟩ : String)),
       ("Processed Images", "Saved both original and processed images for each page"),
       ("Text Length",
         (⟨pyStrip (' ' :: ((Nat.repr txt.length).data ++ (" characters" : String).data))⟩ : String)),
       ("Parser Version", "PDFTextParser v2.0 (Enhanced)")] := by
  have hdec := final_content_decomp fn path sz mt ts od txt
  have hsplit : pySplitOn ("=== EXTRACTED TEXT CONTENT ===" : String).data
      (final_content fn path sz mt ts od txt).data =
      metadata_preamble fn path sz mt ts od txt.length ::
        pySplitOn ("=== EXTRACTED TEXT CONTENT ===" : String).data
          ('\n' :: ("        ".data ++ txt.data ++
            ("\n\n=== END DOCUMENT ===" : String).data)) := by
    rw [hdec, ← List.append_assoc]
    apply pySplitOn_split _ _ _ (by decide)
    intro i hi
    have h0 := hocc i hi
    rw [hdec, ← List.append_assoc] at h0
    exact h0
  have hcont : strContainsSub "=== DOCUMENT METADATA ==="
      (final_content fn path sz mt ts od txt) = true := by
    apply listContainsSub_of_isPrefixOf
    apply List.isPrefixOf_iff_prefix.mpr
    show ("=== DOCUMENT METADATA ===" : String).data <+: _
    rw [hdec]
    unfold metadata_preamble
    simp only [metadata_key_lines]
    rw [joinLines_data_cons]
    simp [List.append_assoc, List.cons_prefix_cons]
  have hP : metadata_preamble fn path sz mt ts od txt.length =
      (joinLines (metadata_key_lines fn path sz mt ts od txt.length ++
        ["        "])).data := by
    unfold metadata_preamble
    rw [joinLines_append _ _ (by simp [metadata_key_lines]) (by simp)]
    rw [show joinLines ["        "] = "        " from rfl]
    simp [String.data_append]
  have hlines : pySplitOn ['\n'] (metadata_preamble fn path sz mt ts od txt.length) =
      (metadata_key_lines fn path sz mt ts od txt.length ++ ["        "]).map
        String.data := by
    rw [hP]
    exact pySplitOn_joinLines _ (by simp [metadata_key_lines])
      (header_lines_nl_free fn path sz mt ts od txt.length hfnl hpl hml htsl hol)
  unfold parse_artifact_metadata
  rw [if_pos hcont]
  simp only [pySplitOnStr]
  rw [hsplit]
  simp only [List.map_cons]
  rw [if_pos (by
    cases hq : pySplitOn ("=== EXTRACTED TEXT CONTENT ===" : String).data
        ('\n' :: ("        ".data ++ txt.data ++
          ("\n\n=== END DOCUMENT ===" : String).data)) with
    | nil => exact absurd hq (pySplitOn_ne_nil _ _)
    | cons x xs =>
      simp only [List.length_cons, List.length_map, List.map_cons]
      omega)]
  simp only [List.headI]
  rw [hlines, map_mk_data]
  have hOF : ∀ acc, headerLineStep acc ("        Original Filename: " ++ fn) =
      acc ++ [("Original Filename", (⟨pyStrip (' ' :: fn.data)⟩ : String))] := by
    intro acc
    rw [headerLineStep_keyval acc _ ("        Original Filename" : String).data
      (' ' :: fn.data)
      (by simp only [String.data_append]; simp)
      (by decide) (by decide) (by decide)]
    rw [show (⟨pyStrip ("        Original Filename" : String).data⟩ : String) =
      "Original Filename" from by decide]
  have hOFP : ∀ acc, headerLineStep acc ("        Original File Path: " ++ path) =
      acc ++ [("Original File Path", (⟨pyStrip (' ' :: path.data)⟩ : String))] := by
    intro acc
    rw [headerLineStep_keyval acc _ ("        Original File Path" : String).data
      (' ' :: path.data)
      (by simp only [String.data_append]; simp)
      (by decide) (by decide) (by decide)]
    rw [show (⟨pyStrip ("        Original File Path" : String).data⟩ : String) =
      "Original File Path" from by decide]
  have hFS : ∀ acc,
      headerLineStep acc ("        File Size: " ++ Nat.repr sz ++ " bytes") =
      acc ++ [("File Size",
        (⟨pyStrip (' ' :: ((Nat.repr sz).data ++ (" bytes" : String).data))⟩ :
          String))] := by
    intro acc
    rw [headerLineStep_keyval acc _ ("        File Size" : String).data
      (' ' :: ((Nat.repr sz).data ++ (" bytes" : String).data))
      (by simp only [String.data_append]; simp)
      (by decide) (by decide) (by decide)]
    rw [show (⟨pyStrip ("        File Size" : String).data⟩ : String) =
      "File Size" from by decide]
  have hFM : ∀ acc, headerLineStep acc ("        File Modified: " ++ mt) =
      acc ++ [("File Modified", (⟨pyStrip (' ' :: mt.data)⟩ : String))] := by
    intro acc
    rw [headerLineStep_keyval acc _ ("        File Modified" : String).data
      (' ' :: mt.data)
      (by simp only [String.data_append]; simp)
      (by decide) (by decide) (by decide)]
    rw [show (⟨pyStrip ("        File Modified" : String).data⟩ : String) =
      "File Modified" from by decide]
  have hPT : ∀ acc, headerLineStep acc ("        Processing Timestamp: " ++ ts) =
      acc ++ [("Processing Timestamp", (⟨pyStrip (' ' :: ts.data)⟩ : String))] := by
    intro acc
    rw [headerLineStep_keyval acc _ ("        Processing Timestamp" : String).data
      (' ' :: ts.data)
      (by simp only [String.data_append]; simp)
      (by decide) (by decide) (by decide)]
    rw [show (⟨pyStrip ("        Processing Timestamp" : String).data⟩ : String) =
      "Processing Timestamp" from by decide]
  have hEM : ∀ acc, headerLineStep acc
      "        Extraction Method: Enhanced OCR (Tesseract with Advanced Preprocessing)" =
      acc ++ [("Extraction Method",
        "Enhanced OCR (Tesseract with Advanced Preprocessing)")] := by
    intro acc
    rw [headerLineStep_keyval acc _ ("        Extraction Method" : String).data
      (' ' :: ("Enhanced OCR (Tesseract with Advanced Preprocessing)" : String).data)
      (by decide) (by decide) (by decide) (by decide)]
    rw [show (⟨pyStrip ("        Extraction Method" : String).data⟩ : String) =
      "Extraction Method" from by decide]
    rw [show (⟨pyStrip (' ' ::
      ("Enhanced OCR (Tesseract with Advanced Preprocessing)" : String).data)⟩ :
      String) = "Enhanced OCR (Tesseract with Advanced Preprocessing)"
      from by decide]
  have hOC : ∀ acc, headerLineStep acc
      "        OCR Configuration: Multiple PSM modes with confidence-based selection" =
      acc ++ [("OCR Configuration",
        "Multiple PSM modes with confidence-based selection")] := by
    intro acc
    rw [headerLineStep_keyval acc _ ("        OCR Configuration" : String).data
      (' ' :: ("Multiple PSM modes with confidence-based selection" : String).data)
      (by decide) (by decide) (by decide) (by decide)]
    rw [show (⟨pyStrip ("        OCR Configuration" : String).data⟩ : String) =
      "OCR Configuration" from by decide]
    rw [show (⟨pyStrip (' ' ::
      ("Multiple PSM modes with confidence-based selection" : String).data)⟩ :
      String) = "Multiple PSM modes with confidence-based selection"
      from by decide]
  have hIP : ∀ acc, headerLineStep acc
      "        Image Preprocessing: Gaussian blur, adaptive thresholding, morphological operations, sharpening, contrast/brightness enhancement" =
      acc ++ [("Image Preprocessing",
        "Gaussian blur, adaptive thresholding, morphological operations, sharpening, contrast/brightness enhancement")] := by
    intro acc
    rw [headerLineStep_keyval acc _ ("        Image Preprocessing" : String).data
      (' ' :: ("Gaussian blur, adaptive thresholding, morphological operations, sharpening, contrast/brightness enhancement" : String).data)
      (by decide) (by decide) (by decide) (by decide)]
    rw [show (⟨pyStrip ("        Image Preprocessing" : String).data⟩ : String) =
      "Image Preprocessing" from by decide]
    rw [show (⟨pyStrip (' ' ::
      ("Gaussian blur, adaptive thresholding, morphological operations, sharpening, contrast/brightness enhancement" : String).data)⟩ :
      String) = "Gaussian blur, adaptive thresholding, morphological operations, sharpening, contrast/brightness enhancement"
      from by decide]
  have hOD : ∀ acc, headerLineStep acc ("        Output Directory: " ++ od) =
      acc ++ [("Output Directory", (⟨pyStrip (' ' :: od.data)⟩ : String))] := by
    intro acc
    rw [headerLineStep_keyval acc _ ("        Output Directory" : String).data
      (' ' :: od.data)
      (by simp only [String.data_append]; simp)
      (by decide) (by decide) (by decide)]
    rw [show (⟨pyStrip ("        Output Directory" : String).data⟩ : String) =
      "Output Directory" from by decide]
  have hPI : ∀ acc, headerLineStep acc
      "        Processed Images: Saved both original and processed images for each page" =
      acc ++ [("Processed Images",
        "Saved both original and processed images for each page")] := by
    intro acc
    rw [headerLineStep_keyval acc _ ("        Processed Images" : String).data
      (' ' :: ("Saved both original and processed images for each page" : String).data)
      (by decide) (by decide) (by decide) (by decide)]
    rw [show (⟨pyStrip ("        Processed Images" : String).data⟩ : String) =
      "Processed Images" from by decide]
    rw [show (⟨pyStrip (' ' ::
      ("Saved both original and processed images for each page" : String).data)⟩ :
      String) = "Saved both original and processed images for each page"
      from by decide]
  have hTL : ∀ acc,
      headerLineStep acc ("        Text Length: " ++ Nat.repr txt.length ++ " characters") =
      acc ++ [("Text Length",
        (⟨pyStrip (' ' :: ((Nat.repr txt.length).data ++
          (" characters" : String).data))⟩ : String))] := by
    intro acc
    rw [headerLineStep_keyval acc _ ("        Text Length" : String).data
      (' ' :: ((Nat.repr txt.length).data ++ (" characters" : String).data))
      (by simp only [String.data_append]; simp)
      (by decide) (by decide) (by decide)]
    rw [show (⟨pyStrip ("        Text Length" : String).data⟩ : String) =
      "Text Length" from by decide]
  have hPV : ∀ acc, headerLineStep acc
      "        Parser Version: PDFTextParser v2.0 (Enhanced)" =
      acc ++ [("Parser Version", "PDFTextParser v2.0 (Enhanced)")] := by
    intro acc
    rw [headerLineStep_keyval acc _ ("        Parser Version" : String).data
      (' ' :: ("PDFTextParser v2.0 (Enhanced)" : String).data)
      (by decide) (by decide) (by decide) (by decide)]
    rw [show (⟨pyStrip ("        Parser Version" : String).data⟩ : String) =
      "Parser Version" from by decide]
    rw [show (⟨pyStrip (' ' ::
      ("PDFTextParser v2.0 (Enhanced)" : String).data)⟩ :
      String) = "PDFTextParser v2.0 (Enhanced)" from by decide]
  simp only [metadata_key_lines, List.cons_append, List.nil_append]
  rw [List.foldl_cons, headerLineStep_skip _ _ (by decide),
    List.foldl_cons, headerLineStep_skip _ _ (by decide),
    List.foldl_cons, hOF, List.foldl_cons, hOFP, List.foldl_cons, hFS,
    List.foldl_cons, hFM, List.foldl_cons, hPT, List.foldl_cons, hEM,
    List.foldl_cons, hOC, List.foldl_cons, hIP, List.foldl_cons, hOD,
    List.foldl_cons, hPI, List.foldl_cons, hTL, List.foldl_cons, hPV,
    List.foldl_cons, headerLineStep_skip _ _ (by decide),
    List.foldl_cons, headerLineStep_skip _ _ (by decide),
    List.foldl_cons, headerLineStep_skip _ _ (by decide),
    List.foldl_nil]
  simp

/-- `strip` ignores one leading space. -/
theorem pyStrip_cons_space (l : List Char) : pyStrip (' ' :: l) = pyStrip l := by
  unfold pyStrip dropLeadWs
  rw [List.dropWhile_cons, if_pos (by decide)]

/-- Stripping the written `Text Length` value recovers it exactly: its first
character is a digit and its last is the letter of `characters`. -/
theorem textLength_value_strip (n : Nat) :
    pyStrip (' ' :: ((Nat.repr n).data ++ (" characters" : String).data)) =
      (Nat.repr n).data ++ (" characters" : String).data := by
  rw [pyStrip_cons_space]
  apply pyStrip_eq_self
  · intro c hc
    cases hR : (Nat.repr n).data with
    | nil => exact absurd hR (repr_data_ne_nil n)
    | cons a tl =>
      rw [hR] at hc
      simp only [List.cons_append, List.head?_cons, Option.some.injEq] at hc
      subst hc
      exact repr_not_ws n _ (by rw [hR]; exact List.mem_cons_self _ _)
  · intro c hc
    rw [List.getLast?_append_of_ne_nil _ (by decide)] at hc
    rw [show (" characters" : String).data.getLast? = some 's' from by decide] at hc
    simp only [Option.some.injEq] at hc
    subst hc
    decide

/-- C8: the Stage-1 artifact round-trip holds only for values `strip` leaves
unchanged.  Corrected statement: if the original filename has no leading or
trailing whitespace (and the written values contain no newline, and the
content marker first occurs at its own header position), then parsing the
written artifact back with the Stage-2 header scanner reconstructs the
original filename, the text-length line value, and the extraction method
exactly as written. -/
theorem claim_C8_metadata_roundtrip (fn path : String) (sz : Nat)
    (mt ts od txt : String)
    (hfs : pyStrip fn.data = fn.data)
    (hfnl : '\n' ∉ fn.data) (hpl : '\n' ∉ path.data) (hml : '\n' ∉ mt.data)
    (htsl : '\n' ∉ ts.data) (hol : '\n' ∉ od.data)
    (hocc : ∀ i, i < (metadata_preamble fn path sz mt ts od txt.length).length →
      ¬ (("=== EXTRACTED TEXT CONTENT ===" : String).data <+:
        ((final_content fn path sz mt ts od txt).data.drop i))) :
    dictGet (parse_artifact_metadata (final_content fn path sz mt ts od txt))
        "Original Filename" = some fn ∧
    dictGet (parse_artifact_metadata (final_content fn path sz mt ts od txt))
        "Text Length" =
      some ⟨(Nat.repr txt.length).data ++ (" characters" : String).data⟩ ∧
    dictGet (parse_artifact_metadata (final_content fn path sz mt ts od txt))
        "Extraction Method" =
      some "Enhanced OCR (Tesseract with Advanced Preprocessing)" := by
  rw [parse_header_fields fn path sz mt ts od txt hfnl hpl hml htsl hol hocc]
  refine ⟨?_, ?_, ?_⟩
  · rw [show (⟨pyStrip (' ' :: fn.data)⟩ : String) = fn from by
      rw [pyStrip_cons_space, hfs]]
    rfl
  · rw [textLength_value_strip txt.length]
    rfl
  · rfl

set_option maxRecDepth 100000 in
set_option maxHeartbeats 2000000 in
/-- C8 witness: a concrete artifact round-trips its filename, text length and
extraction method. -/
theorem claim_C8_metadata_roundtrip_witness :
    dictGet (parse_artifact_metadata
        (final_content "scan.pdf" "in/scan.pdf" 5 "2024-01-01" "2024-01-02"
          "out" "hello world"))
        "Original Filename" = some "scan.pdf" ∧
    dictGet (parse_artifact_metadata
        (final_content "scan.pdf" "in/scan.pdf" 5 "2024-01-01" "2024-01-02"
          "out" "hello world"))
        "Text Length" =
      some ⟨(Nat.repr ("hello world" : String).length).data ++
        (" characters" : String).data⟩ ∧
    dictGet (parse_artifact_metadata
        (final_content "scan.pdf" "in/scan.pdf" 5 "2024-01-01" "2024-01-02"
          "out" "hello world"))
        "Extraction Method" =
      some "Enhanced OCR (Tesseract with Advanced Preprocessing)" :=
  claim_C8_metadata_roundtrip "scan.pdf" "in/scan.pdf" 5 "2024-01-01"
    "2024-01-02" "out" "hello world" (by decide) (by decide) (by decide)
    (by decide) (by decide) (by decide) (by decide)

set_option maxRecDepth 100000 in
set_option maxHeartbeats 2000000 in
/-- C8 counterexample to the literal claim: a filename carrying a leading
space is not reconstructed identically — the header scanner strips it. -/
theorem claim_C8_counterexample :
    dictGet (parse_artifact_metadata
        (final_content " a.pdf" "p" 1 "m" "t" "o" "hello world"))
        "Original Filename" = some "a.pdf" ∧
    (" a.pdf" : String) ≠ "a.pdf" := by
  constructor
  · decide
  · decide

end DocPipeline
